import Mathlib

/-!
# Akool image generation demo: the job tracker of `Demo.jsx` and the backend routes

A shallow embedding of the client-side job tracker of
`src/frontend/src/components/Demo.jsx` (`pollStatus`, `handleGenerate`,
`handleCreateVariant`, `GenerationCard`, the errors they report), of the client calls of
`src/frontend/src/services/api.js` and of the routes `/login`, `/generate`,
`/variant` and `/status/:id` of `src/backend/routes/akool.js`, followed by
theorems about them.

JavaScript values are typed after the shapes of the external interface: an
optional string field is an `Option String` (`none` stands for an absent,
`undefined` or `null` field), an optional array field is an
`Option (List String)`, and `image_status` is an `Option Nat`.
-/

namespace Akool

/-! ## JavaScript primitives used by the source -/

/-- Truthiness of an optional string: absent, null and the empty string are falsy. -/
def truthyStr : Option String → Bool
  | some s => s != ""
  | none => false

/-- The JavaScript expression `a || b` on optional strings. -/
def orStr (a b : Option String) : Option String :=
  if truthyStr a then a else b

/-- The JavaScript method `s.startsWith(p)`. -/
def startsWith (s p : String) : Bool :=
  p.data.isPrefixOf s.data

/-- The JavaScript expression `Array.isArray(a) ? a : []` on an optional array field. -/
def arrayOrEmpty (a : Option (List String)) : List String :=
  match a with
  | some xs => xs
  | none => []

/-! ## Data model -/

/-- One entry of the `generations` state of `Demo` (the union of the fields written by
`handleGenerate`, `handleCreateVariant` and `pollStatus`). -/
structure Generation where
  id : String
  prompt : Option String
  origin_prompt : Option String
  scale : String
  sourceImageUrl : String
  status : Option Nat
  image : Option String
  source_image : Option String
  upscaled_urls : List String
  buttons : List String
  used_buttons : List String
  variantOf : Option String
  button : Option String
  isUpscale : Option Bool
  createdAt : String
  image_status : Option Nat
  deriving DecidableEq, Repr

/-- The `data` object of a successful `GET /status/:id` response. -/
structure StatusData where
  image_status : Option Nat
  image : Option String
  external_img : Option String
  upscaled_urls : Option (List String)
  buttons : Option (List String)
  used_buttons : Option (List String)
  source_image : Option String
  prompt : Option String
  origin_prompt : Option String
  deriving DecidableEq, Repr

/-- The body returned by `imageAPI.getStatus`. -/
structure StatusResponse where
  success : Bool
  data : Option StatusData
  deriving DecidableEq, Repr

/-- The object `pollingIntervalsRef.current`: job id to interval handle. -/
abbrev Intervals := List (String × Nat)

/-- The state owned by the `Demo` component that `pollStatus` reads and writes. -/
structure DemoState where
  generations : List Generation
  pollingIntervals : Intervals
  deriving DecidableEq, Repr

/-! ## `pollStatus` (Demo.jsx, lines 42-121) -/

/-- Line 51: `data.upscaled_urls || []`. -/
def upscaledUrlsOf (data : StatusData) : List String :=
  match data.upscaled_urls with
  | some xs => xs
  | none => []

/-- Line 52: `upscaledUrls.length > 0`. -/
def hasUpscaledUrlsOf (data : StatusData) : Bool :=
  decide ((upscaledUrlsOf data).length > 0)

/-- Line 53: `data.image || data.external_img || null`. -/
def imageUrlOf (data : StatusData) : Option String :=
  orStr (orStr data.image data.external_img) none

/-- Line 54: `!!imageUrl`. -/
def hasImageOf (data : StatusData) : Bool :=
  truthyStr (imageUrlOf data)

/-- Line 61: `gen.isUpscale || (gen.button && gen.button.startsWith('U'))`, as a truth value. -/
def isUpscaleOf (gen : Generation) : Bool :=
  (gen.isUpscale == some true) ||
    (match gen.button with
     | some b => b != "" && startsWith b "U"
     | none => false)

/-- Lines 64-71: the value of `shouldStop` for the matched generation. -/
def shouldStop (data : StatusData) (gen : Generation) : Bool :=
  let status := data.image_status
  if isUpscaleOf gen then
    status == some 4 || (status == some 3 && !hasUpscaledUrlsOf data && hasImageOf data)
  else
    status == some 4 || (status == some 3 && hasUpscaledUrlsOf data)

/-- Lines 74-78: look the interval handle up; when it is truthy, clear it and delete
the entry. -/
def clearPolling (imageId : String) (intervals : Intervals) : Intervals :=
  match intervals.lookup imageId with
  | some intervalId =>
      if intervalId != 0 then intervals.filter (fun e => e.1 != imageId) else intervals
  | none => intervals

/-- Lines 81-109: the record returned for the matched generation. -/
def mergeGeneration (data : StatusData) (gen : Generation) : Generation :=
  let status := data.image_status
  let usedButtonsFromApi := arrayOrEmpty data.used_buttons
  if isUpscaleOf gen then
    { gen with
      status := status
      image := orStr (imageUrlOf data) gen.image
      source_image := orStr data.source_image gen.source_image
      upscaled_urls := []
      buttons := []
      used_buttons := usedButtonsFromApi
      image_status := status
      prompt := orStr data.prompt gen.prompt
      origin_prompt := orStr data.origin_prompt gen.origin_prompt }
  else
    { gen with
      status := status
      image := orStr (imageUrlOf data) gen.image
      source_image := orStr data.source_image gen.source_image
      upscaled_urls := upscaledUrlsOf data
      buttons := if truthyStr gen.variantOf then [] else arrayOrEmpty data.buttons
      used_buttons := usedButtonsFromApi
      image_status := status
      prompt := orStr data.prompt gen.prompt
      origin_prompt := orStr data.origin_prompt gen.origin_prompt }

/-- Lines 57-114: the callback of `prev.map`, with its effect on the interval table. -/
def mergeStep (imageId : String) (data : StatusData) (gen : Generation)
    (intervals : Intervals) : Generation × Intervals :=
  if gen.id == imageId then
    (mergeGeneration data gen,
      if shouldStop data gen then clearPolling imageId intervals else intervals)
  else
    (gen, intervals)

/-- Lines 56-115: `prev.map(...)`, run from the first generation to the last, threading
the interval table through the calls of the callback. -/
def mergeAll (imageId : String) (data : StatusData) :
    List Generation → Intervals → List Generation × Intervals
  | [], intervals => ([], intervals)
  | gen :: rest, intervals =>
      let r := mergeStep imageId data gen intervals
      let rs := mergeAll imageId data rest r.2
      (r.1 :: rs.1, rs.2)

/-- The function `pollStatus(imageId)`; `fetched` is the outcome of
`imageAPI.getStatus(imageId)`, `none` when the call throws. -/
def pollStatus (imageId : String) (fetched : Option StatusResponse) (st : DemoState) :
    DemoState :=
  match fetched with
  | none => st
  | some response =>
      match response.data with
      | some data =>
          if response.success then
            let r := mergeAll imageId data st.generations st.pollingIntervals
            { generations := r.1, pollingIntervals := r.2 }
          else st
      | none => st

/-! ## Creating jobs: `startPolling`, `handleGenerate`, `handleCreateVariant` -/

/-- The `data` object of a successful create response (`/generate` or `/variant`). -/
structure CreateData where
  _id : String
  image_status : Option Nat
  source_image : Option String
  deriving DecidableEq, Repr

/-- The body returned by `imageAPI.generate` and `imageAPI.createVariant`. -/
structure CreateResponse where
  success : Bool
  data : Option CreateData
  error : Option String
  message : Option String
  code : Option Nat
  deriving DecidableEq, Repr

/-- The JavaScript expression `response.data.image_status || 1`. -/
def statusOrQueued (s : Option Nat) : Nat :=
  match s with
  | some n => if n != 0 then n else 1
  | none => 1

/-- The JavaScript expression `a || b` on strings. -/
def orString (a b : String) : String :=
  if a != "" then a else b

/-- Line 133 of `startPolling`: `pollingIntervalsRef.current[imageId] = interval`. The
immediate `pollStatus(imageId)` of line 126 is asynchronous: its merge is a later
`pollStatus` step. -/
def startPolling (imageId : String) (interval : Nat) (intervals : Intervals) : Intervals :=
  (imageId, interval) :: intervals.filter (fun e => e.1 != imageId)

/-- Lines 161-173: the record `newGeneration` of `handleGenerate`. -/
def newGenerationOfPrompt (prompt scale sourceImageUrl : String) (data : CreateData)
    (now : String) : Generation :=
  { id := data._id
    prompt := some prompt
    origin_prompt := none
    scale := scale
    sourceImageUrl := sourceImageUrl
    status := some (statusOrQueued data.image_status)
    image := none
    source_image := orStr data.source_image (some sourceImageUrl)
    upscaled_urls := []
    buttons := []
    used_buttons := []
    variantOf := none
    button := none
    isUpscale := none
    createdAt := now
    image_status := none }

/-- The job-list part of `handleGenerate` (lines 157-176); `fetched` is the outcome of
`imageAPI.generate(params)`, `none` when the call throws. -/
def handleGenerate (prompt scale sourceImageUrl : String) (fetched : Option CreateResponse)
    (now : String) (interval : Nat) (st : DemoState) : DemoState :=
  match fetched with
  | none => st
  | some response =>
      match response.data with
      | some data =>
          if response.success then
            { generations :=
                newGenerationOfPrompt prompt scale sourceImageUrl data now :: st.generations
              pollingIntervals := startPolling data._id interval st.pollingIntervals }
          else st
      | none => st

/-- Lines 223-239: the record `newGeneration` of `handleCreateVariant`; `parentGen` is
the result of `generations.find(gen => gen.id === imageId)`. -/
def newGenerationOfButton (imageId button : String) (parentGen : Option Generation)
    (data : CreateData) (now : String) : Generation :=
  { id := data._id
    prompt := orStr (parentGen.bind (fun p => p.prompt)) (some "")
    origin_prompt :=
      orStr (orStr (parentGen.bind (fun p => p.origin_prompt))
        (parentGen.bind (fun p => p.prompt))) (some "")
    scale := orString ((parentGen.map (fun p => p.scale)).getD "") "1:1"
    sourceImageUrl := orString ((parentGen.map (fun p => p.sourceImageUrl)).getD "") ""
    status := some (statusOrQueued data.image_status)
    image := none
    source_image :=
      orStr (orStr (parentGen.bind (fun p => p.source_image))
        (parentGen.map (fun p => p.sourceImageUrl))) (some "")
    upscaled_urls := []
    buttons := []
    used_buttons := []
    variantOf := some imageId
    button := some button
    isUpscale := some (startsWith button "U")
    createdAt := now
    image_status := none }

/-- The job-list part of `handleCreateVariant` (lines 210-243); `fetched` is the outcome
of `imageAPI.createVariant`, `none` when the call throws. -/
def handleCreateVariant (imageId button : String) (fetched : Option CreateResponse)
    (now : String) (interval : Nat) (st : DemoState) : DemoState :=
  match fetched with
  | none => st
  | some response =>
      match response.data with
      | some data =>
          if response.success then
            let parentGen := st.generations.find? (fun gen => gen.id == imageId)
            { generations :=
                newGenerationOfButton imageId button parentGen data now :: st.generations
              pollingIntervals := startPolling data._id interval st.pollingIntervals }
          else st
      | none => st

/-! ## The `/variant` route (akool.js, lines 193-244) and its client -/

/-- The value of `req.session.auth`. -/
structure SessionAuth where
  type : String
  apiKey : Option String
  token : Option String
  clientId : Option String
  deriving DecidableEq, Repr

/-- Lines 12-28, `getAuthHeaders`: the credential header (name and value), or the
message of the error it throws. A template literal prints an undefined token as the
text `undefined`. -/
def getAuthHeaders (auth : Option SessionAuth) :
    Except String (String × Option String) :=
  match auth with
  | none => .error "Not authenticated"
  | some a =>
      if a.type == "apikey" then .ok ("x-api-key", a.apiKey)
      else if a.type == "token" then
        .ok ("Authorization", some ("Bearer " ++ a.token.getD "undefined"))
      else .error "Invalid authentication type"

/-- The body of a provider response. -/
structure ProviderResponse where
  code : Option Nat
  msg : Option String
  data : Option CreateData
  deriving DecidableEq, Repr

/-- The outcome of an axios call to the provider: it resolves with a body, or throws an
error with a message and, when the provider answered, the body of the answer. -/
inductive ProviderOutcome where
  | returned (response : ProviderResponse)
  | threw (message : String) (response : Option ProviderResponse)
  deriving DecidableEq, Repr

/-- The request of `POST /variant` to the provider (`createbybutton`). -/
structure VariantRequest where
  headers : List (String × Option String)
  _id : String
  button : String
  webhookUrl : String
  deriving DecidableEq, Repr

/-- What an express handler does: the HTTP status and the JSON body it answers with, and
the request it sent to the provider, if any. -/
structure RouteResult (ρ : Type) where
  status : Nat
  body : CreateResponse
  sent : Option ρ

/-- The handler of `POST /variant`; `provider` is the outcome of the `axios.post` to the
provider should the handler reach it. -/
def variantRoute (auth : Option SessionAuth) (_id button webhookUrl : Option String)
    (provider : ProviderOutcome) : RouteResult VariantRequest :=
  match getAuthHeaders auth with
  | .error message =>
      { status := 500
        body := { success := false, data := none, error := some "Failed to create variant",
                  message := some message, code := none }
        sent := none }
  | .ok authHeaders =>
      if !truthyStr _id || !truthyStr button then
        { status := 400
          body := { success := false, data := none, error := some "_id and button are required",
                    message := none, code := none }
          sent := none }
      else
        let requestBody : VariantRequest :=
          { headers := [authHeaders, ("Content-Type", some "application/json")]
            _id := _id.getD ""
            button := button.getD ""
            webhookUrl := (orStr webhookUrl (some "")).getD "" }
        match provider with
        | .threw message response =>
            { status := 500
              body := { success := false, data := none, error := some "Failed to create variant",
                        message := orStr (response.bind (fun r => r.msg)) (some message),
                        code := response.bind (fun r => r.code) }
              sent := some requestBody }
        | .returned response =>
            if response.code == some 1000 then
              { status := 200
                body := { success := true, data := response.data, error := none,
                          message := none, code := none }
                sent := some requestBody }
            else
              { status := 400
                body := { success := false, data := response.data,
                          error := orStr response.msg (some "Failed to create variant"),
                          message := none, code := response.code }
                sent := some requestBody }

/-- The client call `imageAPI.createVariant` of api.js over the route: axios resolves
with the body on a 2xx status and throws otherwise. -/
def createVariant (auth : Option SessionAuth) (imageId button : String)
    (provider : ProviderOutcome) : Option CreateResponse :=
  let res := variantRoute auth (some imageId) (some button) none provider
  if 200 ≤ res.status ∧ res.status < 300 then some res.body else none

/-! ## Runs of the job tracker -/

/-- One event of the job tracker, with the outcome of the network call it waits for. -/
inductive Event where
  | generate (prompt scale sourceImageUrl : String) (fetched : Option CreateResponse)
      (now : String) (interval : Nat)
  | variant (imageId button : String) (auth : Option SessionAuth)
      (provider : ProviderOutcome) (now : String) (interval : Nat)
  | poll (imageId : String) (fetched : Option StatusResponse)
  deriving DecidableEq, Repr

/-- The state after one event. -/
def step (st : DemoState) : Event → DemoState
  | .generate prompt scale sourceImageUrl fetched now interval =>
      handleGenerate prompt scale sourceImageUrl fetched now interval st
  | .variant imageId button auth provider now interval =>
      handleCreateVariant imageId button (createVariant auth imageId button provider)
        now interval st
  | .poll imageId fetched => pollStatus imageId fetched st

/-- The state of a freshly mounted `Demo`: no generations, no intervals. -/
def initialState : DemoState :=
  { generations := [], pollingIntervals := [] }

/-- The state after a sequence of events, from the initial state. -/
def run (events : List Event) : DemoState :=
  events.foldl step initialState


/-! ## Sequences of merges on one record -/

/-- The record of a job after the snapshots were merged into it, in order. -/
def mergeMany (gen : Generation) (snapshots : List StatusData) : Generation :=
  snapshots.foldl (fun g data => mergeGeneration data g) gen

/-- Every action code the record has stored in `buttons`: at the start and after each of
the merges. -/
def buttonsHistory (gen : Generation) : List StatusData → List String
  | [] => gen.buttons
  | data :: rest => gen.buttons ++ buttonsHistory (mergeGeneration data gen) rest

/-! ## Sample data -/

/-- An Initial job `A`, as `handleGenerate` creates it. -/
def sampleInitial : Generation :=
  newGenerationOfPrompt "a cat" "1:1" ""
    { _id := "A", image_status := some 1, source_image := none } "t0"

/-- An Upscale job `B`, as `handleCreateVariant` creates it from `A` and `U1`. -/
def sampleUpscale : Generation :=
  newGenerationOfButton "A" "U1" (some sampleInitial)
    { _id := "B", image_status := some 1, source_image := none } "t1"

/-- A Variant job `C`, as `handleCreateVariant` creates it from `A` and `V1`. -/
def sampleVariant : Generation :=
  newGenerationOfButton "A" "V1" (some sampleInitial)
    { _id := "C", image_status := some 1, source_image := none } "t2"

/-- A state with the three sample jobs, each with a running timer. -/
def sampleState : DemoState :=
  { generations := [sampleVariant, sampleUpscale, sampleInitial]
    pollingIntervals := [("C", 9), ("B", 8), ("A", 7)] }

/-- A snapshot that carries a status and nothing else. -/
def snapshotProcessing : StatusData :=
  { image_status := some 2, image := none, external_img := none, upscaled_urls := none,
    buttons := none, used_buttons := none, source_image := none, prompt := none,
    origin_prompt := none }

/-- A Completed snapshot of a generation: four derived images and two actions. -/
def snapshotCompleted : StatusData :=
  { image_status := some 3, image := none, external_img := none,
    upscaled_urls := some ["u1", "u2", "u3", "u4"], buttons := some ["U1", "V1"],
    used_buttons := some ["U1"], source_image := some "src", prompt := some "a cat, 4k",
    origin_prompt := none }

/-- A Completed snapshot of an upscale: one image, no derived images. -/
def snapshotUpscaled : StatusData :=
  { image_status := some 3, image := some "img", external_img := none, upscaled_urls := none,
    buttons := some ["V1"], used_buttons := none, source_image := none, prompt := none,
    origin_prompt := none }

/-- A Processing snapshot that reports a consumed action and no available action. -/
def snapshotUsedOnly : StatusData :=
  { image_status := some 2, image := none, external_img := none, upscaled_urls := none,
    buttons := none, used_buttons := some ["U1"], source_image := none, prompt := none,
    origin_prompt := none }

/-- A Processing snapshot that already carries the three lists. -/
def snapshotPartial : StatusData :=
  { image_status := some 2, image := none, external_img := none,
    upscaled_urls := some ["u1"], buttons := some ["U1", "V1"], used_buttons := some ["U1"],
    source_image := none, prompt := none, origin_prompt := none }

/-- The record of the sample Initial job after the partial snapshot was merged. -/
def samplePartial : Generation :=
  mergeGeneration snapshotPartial sampleInitial

/-- A session authenticated with an API key. -/
def sampleAuth : SessionAuth :=
  { type := "apikey", apiKey := some "key", token := none, clientId := none }

/-- The provider answer to a create request: success, with the id of the new job. -/
def providerCreated (newId : String) : ProviderOutcome :=
  .returned
    { code := some 1000, msg := none,
      data := some { _id := newId, image_status := some 1, source_image := none } }

/-- A run: job `A` is generated and completes, `U1` and `V1` are invoked on it, and the
two derived jobs `B` and `C` are polled with snapshots that report buttons. -/
def sampleEvents : List Event :=
  [ .generate "a cat" "1:1" ""
      (some { success := true,
              data := some { _id := "A", image_status := some 1, source_image := none },
              error := none, message := none, code := none }) "t0" 7,
    .poll "A" (some ⟨true, some snapshotCompleted⟩),
    .variant "A" "U1" (some sampleAuth) (providerCreated "B") "t1" 8,
    .variant "A" "V1" (some sampleAuth) (providerCreated "C") "t2" 9,
    .poll "B" (some ⟨true, some snapshotUpscaled⟩),
    .poll "C" (some ⟨true, some snapshotCompleted⟩) ]

/-- The record of the Variant job `C` at the end of the sample run. -/
def sampleRunVariant : Generation :=
  mergeGeneration snapshotCompleted
    (newGenerationOfButton "A" "V1" (some (mergeGeneration snapshotCompleted sampleInitial))
      { _id := "C", image_status := some 1, source_image := none } "t2")

/-- The record of the Upscale job `B` at the end of the sample run. -/
def sampleRunUpscale : Generation :=
  mergeGeneration snapshotUpscaled
    (newGenerationOfButton "A" "U1" (some (mergeGeneration snapshotCompleted sampleInitial))
      { _id := "B", image_status := some 1, source_image := none } "t1")

/-! ## `GenerationCard` (Demo.jsx, lines 421-620) -/

/-- One rendered action button (lines 591-612): its label, its `disabled` attribute, and
the call `onVariant(generation.id, button)` that a click invokes, `none` when a click
invokes nothing. -/
structure ActionButton where
  label : String
  disabled : Bool
  onClick : Option (String × String)
  deriving DecidableEq, Repr

/-- What a rendered card shows of the job: the status label, the variant badge, and the
row of action buttons, `none` when the row is not rendered. -/
structure Card where
  statusText : String
  variantBadge : Option String
  actions : Option (List ActionButton)
  deriving DecidableEq, Repr

/-- Lines 14-19 and 423: `STATUS_LABELS[generation.status] || STATUS_LABELS[1]`, the text. -/
def statusTextOf (status : Option Nat) : String :=
  match status with
  | some 1 => "Queueing"
  | some 2 => "Processing"
  | some 3 => "Completed"
  | some 4 => "Failed"
  | _ => "Queueing"

/-- Line 424: `generation.status === 3`. -/
def isCompletedOf (generation : Generation) : Bool :=
  generation.status == some 3

/-- Line 427: `generation.upscaled_urls && generation.upscaled_urls.length > 0`. -/
def hasStoredUpscaledUrls (generation : Generation) : Bool :=
  decide (generation.upscaled_urls.length > 0)

/-- Line 428: `!!generation.image`. -/
def hasStoredImage (generation : Generation) : Bool :=
  truthyStr generation.image

/-- Line 431: `!!generation.variantOf`. -/
def isVariantResult (generation : Generation) : Bool :=
  truthyStr generation.variantOf

/-- Lines 434-448: the card returns `null`. -/
def isHidden (generation : Generation) : Bool :=
  if isCompletedOf generation then
    if isUpscaleOf generation then !hasStoredImage generation
    else !hasStoredUpscaledUrls generation
  else false

/-- Lines 581-585: the condition under which the action row is rendered. -/
def showsActions (generation : Generation) : Bool :=
  isCompletedOf generation && !isVariantResult generation &&
    ((isUpscaleOf generation && hasStoredImage generation) ||
      (!isUpscaleOf generation && hasStoredUpscaledUrls generation)) &&
    decide (generation.buttons.length > 0)

/-- Lines 588-612: the button rendered for one entry of `generation.buttons`. -/
def actionButtonOf (generation : Generation) (button : String) : ActionButton :=
  let isUsed := generation.used_buttons.contains button
  { label := button
    disabled := isUsed
    onClick := if !isUsed then some (generation.id, button) else none }

/-- The component `GenerationCard`: `none` when it returns `null`. -/
def GenerationCard (generation : Generation) : Option Card :=
  if isHidden generation then none
  else
    some
      { statusText := statusTextOf generation.status
        variantBadge :=
          if truthyStr generation.variantOf then
            some ("Variant (" ++ generation.button.getD "" ++ ")")
          else none
        actions :=
          if showsActions generation then
            some (generation.buttons.map (actionButtonOf generation))
          else none }

/-! ## The `/generate` and `/status/:id` routes (akool.js, lines 129-187 and 250-294) -/

/-- The request of `POST /generate` to the provider (`createbyprompt`); `source_image`
is `none` when the field is not in the request body. -/
structure GenerateRequest where
  headers : List (String × Option String)
  prompt : String
  scale : String
  webhookUrl : String
  source_image : Option String
  deriving DecidableEq, Repr

/-- The handler of `POST /generate`; `provider` is the outcome of the `axios.post` to the
provider should the handler reach it. -/
def generateRoute (auth : Option SessionAuth) (prompt scale source_image webhookUrl :
    Option String) (provider : ProviderOutcome) : RouteResult GenerateRequest :=
  match getAuthHeaders auth with
  | .error message =>
      { status := 500
        body := { success := false, data := none, error := some "Failed to generate image",
                  message := some message, code := none }
        sent := none }
  | .ok authHeaders =>
      if !truthyStr prompt then
        { status := 400
          body := { success := false, data := none, error := some "Prompt is required",
                    message := none, code := none }
          sent := none }
      else
        let requestBody : GenerateRequest :=
          { headers := [authHeaders, ("Content-Type", some "application/json")]
            prompt := prompt.getD ""
            scale := (orStr scale (some "1:1")).getD ""
            webhookUrl := (orStr webhookUrl (some "")).getD ""
            source_image := if truthyStr source_image then source_image else none }
        match provider with
        | .threw message response =>
            { status := 500
              body := { success := false, data := none, error := some "Failed to generate image",
                        message := orStr (response.bind (fun r => r.msg)) (some message),
                        code := response.bind (fun r => r.code) }
              sent := some requestBody }
        | .returned response =>
            if response.code == some 1000 then
              { status := 200
                body := { success := true, data := response.data, error := none,
                          message := none, code := none }
                sent := some requestBody }
            else
              { status := 400
                body := { success := false, data := response.data,
                          error := orStr response.msg (some "Failed to generate image"),
                          message := none, code := response.code }
                sent := some requestBody }

/-- The body of a provider response to `infobymodelid`. -/
structure StatusProviderResponse where
  code : Option Nat
  msg : Option String
  data : Option StatusData
  deriving DecidableEq, Repr

/-- The outcome of the axios call to `infobymodelid`: it resolves with a body, or throws. -/
inductive StatusProviderOutcome where
  | returned (response : StatusProviderResponse)
  | threw (message : String) (response : Option StatusProviderResponse)
  deriving DecidableEq, Repr

/-- The request of `GET /status/:id` to the provider. -/
structure StatusRequest where
  headers : List (String × Option String)
  image_model_id : String
  deriving DecidableEq, Repr

/-- The JSON body `GET /status/:id` answers with. -/
structure StatusBody where
  success : Bool
  data : Option StatusData
  error : Option String
  message : Option String
  code : Option Nat
  deriving DecidableEq, Repr

/-- What the handler of `GET /status/:id` does. -/
structure StatusRouteResult where
  status : Nat
  body : StatusBody
  sent : Option StatusRequest
  deriving DecidableEq, Repr

/-- The handler of `GET /status/:id`; `provider` is the outcome of the `axios.get` to the
provider should the handler reach it. -/
def statusRoute (auth : Option SessionAuth) (id : Option String)
    (provider : StatusProviderOutcome) : StatusRouteResult :=
  match getAuthHeaders auth with
  | .error message =>
      { status := 500
        body := { success := false, data := none, error := some "Failed to get status",
                  message := some message, code := none }
        sent := none }
  | .ok authHeaders =>
      if !truthyStr id then
        { status := 400
          body := { success := false, data := none, error := some "Image model ID is required",
                    message := none, code := none }
          sent := none }
      else
        let request : StatusRequest :=
          { headers := [authHeaders], image_model_id := id.getD "" }
        match provider with
        | .threw message response =>
            { status := 500
              body := { success := false, data := none, error := some "Failed to get status",
                        message := orStr (response.bind (fun r => r.msg)) (some message),
                        code := response.bind (fun r => r.code) }
              sent := some request }
        | .returned response =>
            if response.code == some 1000 then
              { status := 200
                body := { success := true, data := response.data, error := none,
                          message := none, code := none }
                sent := some request }
            else
              { status := 400
                body := { success := false, data := response.data,
                          error := orStr response.msg (some "Failed to get status"),
                          message := none, code := response.code }
                sent := some request }

/-- The client call `imageAPI.getStatus` of api.js over the route: axios resolves with
the body on a 2xx status and throws otherwise. -/
def getStatus (auth : Option SessionAuth) (imageModelId : String)
    (provider : StatusProviderOutcome) : Option StatusResponse :=
  let res := statusRoute auth (some imageModelId) provider
  if 200 ≤ res.status ∧ res.status < 300 then
    some { success := res.body.success, data := res.body.data }
  else none

/-! ## The `/login` route (akool.js, lines 34-123) -/

/-- The body of the provider response to `getToken`. -/
structure TokenResponse where
  code : Option Nat
  token : Option String
  msg : Option String
  deriving DecidableEq, Repr

/-- The outcome of the axios call to `getToken`: it resolves with a body, or throws. -/
inductive TokenOutcome where
  | returned (response : TokenResponse)
  | threw (message : String) (response : Option TokenResponse)
  deriving DecidableEq, Repr

/-- The request of `POST /login` to the provider (`getToken`). -/
structure TokenRequest where
  clientId : String
  clientSecret : String
  deriving DecidableEq, Repr

/-- The JSON body `POST /login` answers with. -/
structure LoginBody where
  success : Bool
  authType : Option String
  message : Option String
  error : Option String
  token : Option String
  deriving DecidableEq, Repr

/-- What the handler of `POST /login` does: the HTTP status and body, the value of
`req.session.auth` afterwards, and the token request it sent to the provider, if any. -/
structure LoginResult where
  status : Nat
  body : LoginBody
  session : Option SessionAuth
  sent : Option TokenRequest
  deriving DecidableEq, Repr

/-- The handler of `POST /login`, on a request whose body is a JSON object; `session` is
`req.session.auth` before the call and `provider` the outcome of the `axios.post` to
`getToken` should the handler reach it. -/
def loginRoute (session : Option SessionAuth) (authType apiKey clientId clientSecret :
    Option String) (provider : TokenOutcome) : LoginResult :=
  if !truthyStr authType || (authType != some "apikey" && authType != some "token") then
    { status := 400
      body := { success := false, authType := none, message := none,
                error := some "Invalid authType. Must be \"apikey\" or \"token\"",
                token := none }
      session := session
      sent := none }
  else if authType == some "apikey" then
    if !truthyStr apiKey then
      { status := 400
        body := { success := false, authType := none, message := none,
                  error := some "API key is required", token := none }
        session := session
        sent := none }
    else
      { status := 200
        body := { success := true, authType := some "apikey",
                  message := some "Authentication successful", error := none, token := none }
        session := some { type := "apikey", apiKey := apiKey, token := none, clientId := none }
        sent := none }
  else
    if !truthyStr clientId || !truthyStr clientSecret then
      { status := 400
        body := { success := false, authType := none, message := none,
                  error := some "Client ID and Client Secret are required", token := none }
        session := session
        sent := none }
    else
      let request : TokenRequest :=
        { clientId := clientId.getD "", clientSecret := clientSecret.getD "" }
      match provider with
      | .returned response =>
          if response.code == some 1000 && truthyStr response.token then
            { status := 200
              body := { success := true, authType := some "token",
                        message := some "Authentication successful", error := none,
                        token := response.token }
              session :=
                some { type := "token", apiKey := none, token := response.token,
                       clientId := clientId }
              sent := some request }
          else
            { status := 401
              body := { success := false, authType := none,
                        message := orStr response.msg (some "Invalid credentials"),
                        error := some "Failed to get token", token := none }
              session := session
              sent := some request }
      | .threw message response =>
          { status := 401
            body := { success := false, authType := none,
                      message := orStr (response.bind (fun r => r.msg)) (some message),
                      error := some "Authentication failed", token := none }
            session := session
            sent := some request }

/-! ## Sequences of polls, and more sample data -/

/-- The state after a sequence of polls, each with its id and the outcome of its fetch. -/
def pollMany (polls : List (String × Option StatusResponse)) (st : DemoState) : DemoState :=
  polls.foldl (fun s p => pollStatus p.1 p.2 s) st

/-- A successful create response that carries `data`. -/
def createdResponse (data : CreateData) : CreateResponse :=
  { success := true, data := some data, error := none, message := none, code := none }

/-- A Completed snapshot of a generation on which no action was consumed yet. -/
def snapshotFresh : StatusData :=
  { snapshotCompleted with used_buttons := none }

/-- The record of job `A` once completed, before any action is invoked. -/
def sampleParent : Generation :=
  mergeGeneration snapshotFresh sampleInitial

/-- A state that holds the completed job `A` only. -/
def sampleParentState : DemoState :=
  { generations := [sampleParent], pollingIntervals := [] }

/-- The header is one of the two credential headers that `getAuthHeaders` builds. -/
def isCredentialHeader (header : String × Option String) : Bool :=
  header.1 == "x-api-key" || header.1 == "Authorization"

/-- A session authenticated with a bearer token. -/
def sampleTokenAuth : SessionAuth :=
  { type := "token", apiKey := none, token := some "tok", clientId := some "id" }

/-- The provider answer to a status request: success, with a snapshot. -/
def providerStatus (data : StatusData) : StatusProviderOutcome :=
  .returned { code := some 1000, msg := none, data := some data }

/-- The record of job `A` after the Completed snapshot that reports `U1` consumed. -/
def sampleCompleted : Generation :=
  mergeGeneration snapshotCompleted sampleInitial

/-- The card of `sampleCompleted`: `U1` disabled, `V1` enabled. -/
def sampleCompletedCard : Card :=
  { statusText := "Completed"
    variantBadge := none
    actions := some [⟨"U1", true, none⟩, ⟨"V1", false, some ("A", "V1")⟩] }

/-! ## Failures reported to the user (api.js; Demo.jsx, lines 182-199 and 246-254) -/

/-- The outcome of an axios call of api.js: it resolves with the body of a 2xx answer, or
rejects with an error that has a message and, when the server answered, the body of the
answer (`err.response.data`). -/
inductive ApiOutcome (β : Type) where
  | resolved (body : β)
  | rejected (message : String) (body : Option β)
  deriving DecidableEq, Repr

/-- What axios makes of an answer of the backend: a 2xx status resolves, any other status
rejects with the body attached. -/
def axiosOutcome {β : Type} (status : Nat) (body : β) : ApiOutcome β :=
  if 200 ≤ status ∧ status < 300 then .resolved body
  else .rejected ("Request failed with status code " ++ toString status) (some body)

/-- The call `imageAPI.generate(params)` of `handleGenerate` (lines 151-157) over the
route: `source_image` is in the parameters only when `sourceImageUrl` is not empty. -/
def generateOutcome (auth : Option SessionAuth) (prompt scale sourceImageUrl : String)
    (provider : ProviderOutcome) : ApiOutcome CreateResponse :=
  let res := generateRoute auth (some prompt) (some scale)
    (if sourceImageUrl != "" then some sourceImageUrl else none) none provider
  axiosOutcome res.status res.body

/-- The call `imageAPI.createVariant({ _id, button })` of `handleCreateVariant` (lines
210-213) over the route. -/
def createVariantOutcome (auth : Option SessionAuth) (imageId button : String)
    (provider : ProviderOutcome) : ApiOutcome CreateResponse :=
  let res := variantRoute auth (some imageId) (some button) none provider
  axiosOutcome res.status res.body

/-- The call `imageAPI.getStatus(imageId)` of `pollStatus` (line 44) over the route. -/
def getStatusOutcome (auth : Option SessionAuth) (imageId : String)
    (provider : StatusProviderOutcome) : ApiOutcome StatusBody :=
  let res := statusRoute auth (some imageId) provider
  axiosOutcome res.status res.body

/-- The value of the `error` state when `handleGenerate` returns (lines 146 and 182-199):
empty when the job was registered, else the message set by the `else` branch or by the
`catch` branch, where the codes 1101, 1108 and 1200 replace the message. -/
def reportedGenerateError (outcome : ApiOutcome CreateResponse) : String :=
  match outcome with
  | .resolved response =>
      if response.success && response.data.isSome then ""
      else
        (orStr (orStr response.error response.message)
          (some "Failed to generate image")).getD ""
  | .rejected message body =>
      let errorMessage :=
        orStr (orStr (orStr (body.bind (fun r => r.error)) (body.bind (fun r => r.message)))
          (some message)) (some "Failed to generate image")
      let code := body.bind (fun r => r.code)
      if code == some 1101 then "Authentication expired. Please login again."
      else if code == some 1108 then "Image generation error. Please try again later."
      else if code == some 1200 then "Account has been banned."
      else errorMessage.getD ""

/-- The value of the `error` state when `handleCreateVariant` returns (lines 206 and
246-254): empty when the job was registered, else the message set by the `else` branch or
by the `catch` branch. -/
def reportedVariantError (outcome : ApiOutcome CreateResponse) : String :=
  match outcome with
  | .resolved response =>
      if response.success && response.data.isSome then ""
      else
        (orStr (orStr response.error response.message)
          (some "Failed to create variant")).getD ""
  | .rejected message body =>
      (orStr (orStr (orStr (body.bind (fun r => r.error)) (body.bind (fun r => r.message)))
        (some message)) (some "Failed to create variant")).getD ""

/-- The value of the `error` state when `pollStatus` returns: the function never calls
`setError` (its `catch` branch, lines 117-120, only logs to the console), so the state
keeps the value `previous` it had, whatever the outcome of the fetch. -/
def reportedPollError (previous : String) (_outcome : ApiOutcome StatusBody) : String :=
  previous

/-- The provider answer to a create request: failure with the given code and message. -/
def providerFailed (code : Nat) (msg : String) : ProviderOutcome :=
  .returned { code := some code, msg := some msg, data := none }

/-- The provider answer to a status request: failure with the given code and message. -/
def providerStatusFailed (code : Nat) (msg : String) : StatusProviderOutcome :=
  .returned { code := some code, msg := some msg, data := none }
/-! ## Lemmas on the interval table -/

theorem lookup_filter_ne (imageId : String) (intervals : Intervals) :
    (intervals.filter (fun e => e.1 != imageId)).lookup imageId = none := by
  induction intervals with
  | nil => rfl
  | cons e rest ih =>
      obtain ⟨k, v⟩ := e
      by_cases h : k = imageId
      · rw [List.filter_cons_of_neg (by simp [h])]
        exact ih
      · have h2 : (imageId == k) = false := by
          rw [beq_eq_false_iff_ne]
          exact fun h3 => h h3.symm
        rw [List.filter_cons_of_pos (by simp [h])]
        rw [List.lookup_cons, h2]
        exact ih

theorem clearPolling_idem (imageId : String) (intervals : Intervals) :
    clearPolling imageId (clearPolling imageId intervals) = clearPolling imageId intervals := by
  unfold clearPolling
  cases hl : intervals.lookup imageId with
  | none => simp [hl]
  | some h =>
      by_cases h0 : h = 0
      · simp [h0, hl]
      · simp [h0, lookup_filter_ne]

theorem mergeAll_intervals (imageId : String) (data : StatusData) (gens : List Generation)
    (intervals : Intervals) :
    (mergeAll imageId data gens intervals).2 =
      if gens.any (fun g => g.id == imageId && shouldStop data g) then
        clearPolling imageId intervals
      else intervals := by
  induction gens generalizing intervals with
  | nil => rfl
  | cons g rest ih =>
      simp only [mergeAll, List.any_cons]
      rw [ih]
      unfold mergeStep
      by_cases hid : (g.id == imageId) = true
      · by_cases hs : shouldStop data g = true
        · simp [hid, hs, clearPolling_idem]
        · simp [hid, hs]
      · simp [hid]

theorem mergeAll_generations (imageId : String) (data : StatusData) (gens : List Generation)
    (intervals : Intervals) :
    (mergeAll imageId data gens intervals).1 =
      gens.map (fun g => if g.id == imageId then mergeGeneration data g else g) := by
  induction gens generalizing intervals with
  | nil => rfl
  | cons g rest ih =>
      simp only [mergeAll, List.map_cons]
      rw [ih]
      unfold mergeStep
      by_cases hid : (g.id == imageId) = true <;> simp [hid]

/-! ## Lemmas on the snapshot tests -/

theorem hasImageOf_iff (data : StatusData) :
    hasImageOf data = true ↔
      (truthyStr data.image = true ∨ truthyStr data.external_img = true) := by
  unfold hasImageOf imageUrlOf orStr
  by_cases h1 : truthyStr data.image = true
  · simp [h1]
  · by_cases h2 : truthyStr data.external_img = true
    · simp [h1, h2]
    · have h3 : truthyStr none = false := rfl
      simp [h1, h2, h3]

theorem hasUpscaledUrlsOf_eq_false_iff (data : StatusData) :
    hasUpscaledUrlsOf data = false ↔
      (data.upscaled_urls = none ∨ data.upscaled_urls = some []) := by
  unfold hasUpscaledUrlsOf upscaledUrlsOf
  cases h : data.upscaled_urls with
  | none => simp
  | some xs => cases xs <;> simp

theorem hasUpscaledUrlsOf_iff (data : StatusData) :
    hasUpscaledUrlsOf data = true ↔ ∃ u us, data.upscaled_urls = some (u :: us) := by
  unfold hasUpscaledUrlsOf upscaledUrlsOf
  cases h : data.upscaled_urls with
  | none => simp
  | some xs => cases xs <;> simp

theorem shouldStop_upscale_iff (data : StatusData) (gen : Generation)
    (hkind : isUpscaleOf gen = true) :
    shouldStop data gen = true ↔
      (data.image_status = some 4 ∨
        (data.image_status = some 3 ∧
          (data.upscaled_urls = none ∨ data.upscaled_urls = some []) ∧
          (truthyStr data.image = true ∨ truthyStr data.external_img = true))) := by
  rw [← hasUpscaledUrlsOf_eq_false_iff, ← hasImageOf_iff]
  unfold shouldStop
  simp [hkind, and_assoc]

theorem shouldStop_other_iff (data : StatusData) (gen : Generation)
    (hkind : isUpscaleOf gen = false) :
    shouldStop data gen = true ↔
      (data.image_status = some 4 ∨
        (data.image_status = some 3 ∧ ∃ u us, data.upscaled_urls = some (u :: us))) := by
  rw [← hasUpscaledUrlsOf_iff]
  unfold shouldStop
  simp [hkind]

theorem pollStatus_intervals (imageId : String) (data : StatusData) (st : DemoState)
    (gen : Generation) (hmem : gen ∈ st.generations) (hid : gen.id = imageId)
    (hsame : ∀ g ∈ st.generations, g.id = imageId → shouldStop data g = shouldStop data gen) :
    (pollStatus imageId (some ⟨true, some data⟩) st).pollingIntervals =
      if shouldStop data gen then clearPolling imageId st.pollingIntervals
      else st.pollingIntervals := by
  simp only [pollStatus, if_true, mergeAll_intervals]
  by_cases hs : shouldStop data gen = true
  · have : st.generations.any (fun g => g.id == imageId && shouldStop data g) = true := by
      rw [List.any_eq_true]
      exact ⟨gen, hmem, by simp [hid, hs]⟩
    simp [this, hs]
  · have : st.generations.any (fun g => g.id == imageId && shouldStop data g) = false := by
      rw [List.any_eq_false]
      intro g hg
      by_cases hgid : g.id = imageId
      · have := hsame g hg hgid
        simp [this, hs]
      · simp [hgid]
    simp [this, hs]

theorem clearPolling_lookup (imageId : String) (intervals : Intervals) (h : Nat)
    (hl : intervals.lookup imageId = some h) (h0 : h ≠ 0) :
    (clearPolling imageId intervals).lookup imageId = none := by
  unfold clearPolling
  simp [hl, h0, lookup_filter_ne]

theorem pollStatus_timer (imageId : String) (data : StatusData) (st : DemoState)
    (gen : Generation) (h : Nat) (hmem : gen ∈ st.generations) (hid : gen.id = imageId)
    (hsame : ∀ g ∈ st.generations, g.id = imageId → shouldStop data g = shouldStop data gen)
    (hl : st.pollingIntervals.lookup imageId = some h) (h0 : h ≠ 0) :
    ((pollStatus imageId (some ⟨true, some data⟩) st).pollingIntervals.lookup imageId = none ↔
        shouldStop data gen = true) ∧
      (shouldStop data gen = true →
        (pollStatus imageId (some ⟨true, some data⟩) st).pollingIntervals =
          st.pollingIntervals.filter (fun e => e.1 != imageId)) ∧
      (shouldStop data gen = false →
        (pollStatus imageId (some ⟨true, some data⟩) st).pollingIntervals =
          st.pollingIntervals) := by
  rw [pollStatus_intervals imageId data st gen hmem hid hsame]
  by_cases hs : shouldStop data gen = true
  · simp [hs, clearPolling_lookup imageId _ h hl h0]
    simp [clearPolling, hl, h0]
  · simp [hs, hl]

/-! ## Termination conditions -/

/-- C1: for a job classified as Upscale and a successful status snapshot, the merge of
`pollStatus` decides to stop polling, and the running timer entry of the job is cleared
and removed, exactly when the snapshot status is 4, or it is 3 with `upscaled_urls`
absent or empty and an image (`image` or `external_img`) present; otherwise the interval
table is left as it was. -/
theorem pollStatus_upscale_stops_iff (imageId : String) (data : StatusData) (st : DemoState)
    (gen : Generation) (h : Nat) (hmem : gen ∈ st.generations) (hid : gen.id = imageId)
    (hkind : ∀ g ∈ st.generations, g.id = imageId → isUpscaleOf g = true)
    (hl : st.pollingIntervals.lookup imageId = some h) (h0 : h ≠ 0) :
    (shouldStop data gen = true ↔
        (data.image_status = some 4 ∨
          (data.image_status = some 3 ∧
            (data.upscaled_urls = none ∨ data.upscaled_urls = some []) ∧
            (truthyStr data.image = true ∨ truthyStr data.external_img = true)))) ∧
      ((pollStatus imageId (some ⟨true, some data⟩) st).pollingIntervals.lookup imageId =
          none ↔
        (data.image_status = some 4 ∨
          (data.image_status = some 3 ∧
            (data.upscaled_urls = none ∨ data.upscaled_urls = some []) ∧
            (truthyStr data.image = true ∨ truthyStr data.external_img = true)))) ∧
      (shouldStop data gen = true →
        (pollStatus imageId (some ⟨true, some data⟩) st).pollingIntervals =
          st.pollingIntervals.filter (fun e => e.1 != imageId)) ∧
      (shouldStop data gen = false →
        (pollStatus imageId (some ⟨true, some data⟩) st).pollingIntervals =
          st.pollingIntervals) := by
  have hgen := hkind gen hmem hid
  have hsame : ∀ g ∈ st.generations, g.id = imageId →
      shouldStop data g = shouldStop data gen := by
    intro g hg hgid
    simp [shouldStop, hkind g hg hgid, hgen]
  obtain ⟨t1, t2, t3⟩ := pollStatus_timer imageId data st gen h hmem hid hsame hl h0
  exact ⟨shouldStop_upscale_iff data gen hgen,
    t1.trans (shouldStop_upscale_iff data gen hgen), t2, t3⟩

/-- Witness of C1: the sample Upscale job `B` with a running timer and a Completed
snapshot that carries an image and no `upscaled_urls`; the timer entry is removed. -/
theorem pollStatus_upscale_stops_iff_witness :
    (sampleUpscale ∈ sampleState.generations ∧ sampleUpscale.id = "B" ∧
        (∀ g ∈ sampleState.generations, g.id = "B" → isUpscaleOf g = true) ∧
        sampleState.pollingIntervals.lookup "B" = some 8 ∧ 8 ≠ 0) ∧
      (pollStatus "B" (some ⟨true, some snapshotUpscaled⟩)
        sampleState).pollingIntervals.lookup "B" = none :=
  ⟨⟨by decide, by decide, by decide, by decide, by decide⟩,
    ((pollStatus_upscale_stops_iff "B" snapshotUpscaled sampleState sampleUpscale 8
      (by decide) (by decide) (by decide) (by decide) (by decide)).2.1).mpr
      (Or.inr ⟨rfl, Or.inl rfl, Or.inl (by decide)⟩)⟩

/-- C2: for a job classified as Initial or Variant (not Upscale) and a successful status
snapshot, the merge of `pollStatus` decides to stop polling, and the running timer entry
of the job is cleared and removed, exactly when the snapshot status is 4, or it is 3 with
a non-empty `upscaled_urls`; a snapshot with status 3 and no `upscaled_urls` does not
stop polling. -/
theorem pollStatus_other_stops_iff (imageId : String) (data : StatusData) (st : DemoState)
    (gen : Generation) (h : Nat) (hmem : gen ∈ st.generations) (hid : gen.id = imageId)
    (hkind : ∀ g ∈ st.generations, g.id = imageId → isUpscaleOf g = false)
    (hl : st.pollingIntervals.lookup imageId = some h) (h0 : h ≠ 0) :
    (shouldStop data gen = true ↔
        (data.image_status = some 4 ∨
          (data.image_status = some 3 ∧ ∃ u us, data.upscaled_urls = some (u :: us)))) ∧
      ((pollStatus imageId (some ⟨true, some data⟩) st).pollingIntervals.lookup imageId =
          none ↔
        (data.image_status = some 4 ∨
          (data.image_status = some 3 ∧ ∃ u us, data.upscaled_urls = some (u :: us)))) ∧
      (shouldStop data gen = true →
        (pollStatus imageId (some ⟨true, some data⟩) st).pollingIntervals =
          st.pollingIntervals.filter (fun e => e.1 != imageId)) ∧
      (shouldStop data gen = false →
        (pollStatus imageId (some ⟨true, some data⟩) st).pollingIntervals =
          st.pollingIntervals) ∧
      (data.image_status = some 3 →
        (data.upscaled_urls = none ∨ data.upscaled_urls = some []) →
        shouldStop data gen = false ∧
          (pollStatus imageId (some ⟨true, some data⟩) st).pollingIntervals =
            st.pollingIntervals) := by
  have hgen := hkind gen hmem hid
  have hsame : ∀ g ∈ st.generations, g.id = imageId →
      shouldStop data g = shouldStop data gen := by
    intro g hg hgid
    simp [shouldStop, hkind g hg hgid, hgen]
  obtain ⟨t1, t2, t3⟩ := pollStatus_timer imageId data st gen h hmem hid hsame hl h0
  have hiff := shouldStop_other_iff data gen hgen
  refine ⟨hiff, t1.trans hiff, t2, t3, ?_⟩
  intro h3 hno
  have hs : shouldStop data gen = false := by
    rw [← Bool.not_eq_true, hiff]
    rintro (h4 | ⟨_, u, us, hu⟩)
    · rw [h3] at h4
      exact absurd h4 (by decide)
    · rcases hno with hn | hn <;> rw [hn] at hu <;> exact absurd hu (by simp)
  exact ⟨hs, t3 hs⟩

/-- Witness of C2: the sample Initial job `A` with a running timer and a Completed
snapshot that carries four derived images; the timer entry is removed. -/
theorem pollStatus_other_stops_iff_witness :
    (sampleInitial ∈ sampleState.generations ∧ sampleInitial.id = "A" ∧
        (∀ g ∈ sampleState.generations, g.id = "A" → isUpscaleOf g = false) ∧
        sampleState.pollingIntervals.lookup "A" = some 7 ∧ 7 ≠ 0) ∧
      (pollStatus "A" (some ⟨true, some snapshotCompleted⟩)
        sampleState).pollingIntervals.lookup "A" = none :=
  ⟨⟨by decide, by decide, by decide, by decide, by decide⟩,
    ((pollStatus_other_stops_iff "A" snapshotCompleted sampleState sampleInitial 7
      (by decide) (by decide) (by decide) (by decide) (by decide)).2.1).mpr
      (Or.inr ⟨rfl, "u1", ["u2", "u3", "u4"], rfl⟩)⟩

/-! ## The merged record -/

theorem orStr_orStr (a b : Option String) : orStr a (orStr a b) = orStr a b := by
  unfold orStr
  by_cases h : truthyStr a = true <;> simp [h]

theorem mergeGeneration_isUpscaleOf (data : StatusData) (gen : Generation) :
    isUpscaleOf (mergeGeneration data gen) = isUpscaleOf gen := by
  unfold mergeGeneration
  by_cases h : isUpscaleOf gen = true
  · simp only [h, if_true]
    simpa [isUpscaleOf] using h
  · simp only [h]
    simp only [Bool.not_eq_true] at h
    simpa [isUpscaleOf] using h

theorem mergeGeneration_id (data : StatusData) (gen : Generation) :
    (mergeGeneration data gen).id = gen.id := by
  unfold mergeGeneration
  by_cases h : isUpscaleOf gen = true <;> simp [h]

theorem mergeGeneration_variantOf (data : StatusData) (gen : Generation) :
    (mergeGeneration data gen).variantOf = gen.variantOf := by
  unfold mergeGeneration
  by_cases h : isUpscaleOf gen = true <;> simp [h]

theorem mergeGeneration_upscale (data : StatusData) (gen : Generation)
    (h : isUpscaleOf gen = true) :
    mergeGeneration data gen =
      { gen with
        status := data.image_status
        image := orStr (imageUrlOf data) gen.image
        source_image := orStr data.source_image gen.source_image
        upscaled_urls := []
        buttons := []
        used_buttons := arrayOrEmpty data.used_buttons
        image_status := data.image_status
        prompt := orStr data.prompt gen.prompt
        origin_prompt := orStr data.origin_prompt gen.origin_prompt } := by
  unfold mergeGeneration
  simp [h]

theorem mergeGeneration_other (data : StatusData) (gen : Generation)
    (h : isUpscaleOf gen = false) :
    mergeGeneration data gen =
      { gen with
        status := data.image_status
        image := orStr (imageUrlOf data) gen.image
        source_image := orStr data.source_image gen.source_image
        upscaled_urls := upscaledUrlsOf data
        buttons := if truthyStr gen.variantOf then [] else arrayOrEmpty data.buttons
        used_buttons := arrayOrEmpty data.used_buttons
        image_status := data.image_status
        prompt := orStr data.prompt gen.prompt
        origin_prompt := orStr data.origin_prompt gen.origin_prompt } := by
  unfold mergeGeneration
  simp [h]

theorem mergeGeneration_idem (data : StatusData) (gen : Generation) :
    mergeGeneration data (mergeGeneration data gen) = mergeGeneration data gen := by
  have hk := mergeGeneration_isUpscaleOf data gen
  by_cases h : isUpscaleOf gen = true
  · rw [h] at hk
    rw [mergeGeneration_upscale data _ hk, mergeGeneration_upscale data gen h]
    simp [orStr_orStr]
  · simp only [Bool.not_eq_true] at h
    rw [h] at hk
    rw [mergeGeneration_other data _ hk, mergeGeneration_other data gen h]
    simp [orStr_orStr]

theorem shouldStop_mergeGeneration (data data2 : StatusData) (gen : Generation) :
    shouldStop data (mergeGeneration data2 gen) = shouldStop data gen := by
  unfold shouldStop
  rw [mergeGeneration_isUpscaleOf]

/-! ## Idempotence -/

/-- C3: the merge is idempotent: polling an id with an outcome twice in a row leaves the
same state, in particular the same list of job records field by field, as polling once. -/
theorem pollStatus_idempotent (imageId : String) (fetched : Option StatusResponse)
    (st : DemoState) :
    (pollStatus imageId fetched (pollStatus imageId fetched st)).generations =
        (pollStatus imageId fetched st).generations ∧
      pollStatus imageId fetched (pollStatus imageId fetched st) =
        pollStatus imageId fetched st := by
  suffices hst : pollStatus imageId fetched (pollStatus imageId fetched st) =
      pollStatus imageId fetched st from ⟨by rw [hst], hst⟩
  cases fetched with
  | none => rfl
  | some response =>
      obtain ⟨success, data⟩ := response
      cases data with
      | none => rfl
      | some data =>
          cases success with
          | false => rfl
          | true =>
              simp only [pollStatus, if_true, mergeAll_generations, mergeAll_intervals,
                List.any_map, List.map_map]
              have hf : ((fun g => if (g.id == imageId) = true then mergeGeneration data g
                    else g) ∘ fun g => if (g.id == imageId) = true then mergeGeneration data g
                    else g) =
                  fun g => if (g.id == imageId) = true then mergeGeneration data g else g := by
                funext g
                by_cases hid : g.id = imageId
                · simp [hid, mergeGeneration_id, mergeGeneration_idem]
                · simp [hid]
              have hp : ((fun g => g.id == imageId && shouldStop data g) ∘
                    fun g => if (g.id == imageId) = true then mergeGeneration data g else g) =
                  fun g => g.id == imageId && shouldStop data g := by
                funext g
                by_cases hid : g.id = imageId
                · simp [hid, mergeGeneration_id, shouldStop_mergeGeneration]
                · simp [hid]
              rw [hf, hp]
              by_cases hany :
                  st.generations.any (fun g => g.id == imageId && shouldStop data g) = true
              · simp [hany, clearPolling_idem]
              · simp [hany]

/-! ## Field by field -/

theorem truthyStr_eq_false_iff (a : Option String) :
    truthyStr a = false ↔ (a = none ∨ a = some "") := by
  cases a with
  | none => simp [truthyStr]
  | some s => simp [truthyStr]

theorem orStr_of_falsy (a b : Option String) (h : truthyStr a = false) : orStr a b = b := by
  simp [orStr, h]

theorem orStr_of_truthy (a b : Option String) (h : truthyStr a = true) : orStr a b = a := by
  simp [orStr, h]

theorem imageUrlOf_cases (data : StatusData) :
    (truthyStr data.image = true → imageUrlOf data = data.image) ∧
      (truthyStr data.image = false → truthyStr data.external_img = true →
        imageUrlOf data = data.external_img) ∧
      (truthyStr data.image = false → truthyStr data.external_img = false →
        imageUrlOf data = none) := by
  unfold imageUrlOf
  refine ⟨fun h => ?_, fun h1 h2 => ?_, fun h1 h2 => ?_⟩
  · simp [orStr, h]
  · simp [orStr, h1, h2]
  · simp [orStr, h1, h2]

theorem mergeGeneration_source_image_eq (data : StatusData) (gen : Generation) :
    (mergeGeneration data gen).source_image = orStr data.source_image gen.source_image := by
  unfold mergeGeneration
  by_cases h : isUpscaleOf gen = true <;> simp [h]

theorem mergeGeneration_image_eq (data : StatusData) (gen : Generation) :
    (mergeGeneration data gen).image = orStr (imageUrlOf data) gen.image := by
  unfold mergeGeneration
  by_cases h : isUpscaleOf gen = true <;> simp [h]

theorem mergeGeneration_prompt_eq (data : StatusData) (gen : Generation) :
    (mergeGeneration data gen).prompt = orStr data.prompt gen.prompt := by
  unfold mergeGeneration
  by_cases h : isUpscaleOf gen = true <;> simp [h]

theorem mergeGeneration_origin_prompt_eq (data : StatusData) (gen : Generation) :
    (mergeGeneration data gen).origin_prompt =
      orStr data.origin_prompt gen.origin_prompt := by
  unfold mergeGeneration
  by_cases h : isUpscaleOf gen = true <;> simp [h]

theorem mergeGeneration_status_eq (data : StatusData) (gen : Generation) :
    (mergeGeneration data gen).status = data.image_status := by
  unfold mergeGeneration
  by_cases h : isUpscaleOf gen = true <;> simp [h]

theorem mergeGeneration_used_buttons_eq (data : StatusData) (gen : Generation) :
    (mergeGeneration data gen).used_buttons = arrayOrEmpty data.used_buttons := by
  unfold mergeGeneration
  by_cases h : isUpscaleOf gen = true <;> simp [h]

theorem mergeGeneration_upscaled_urls_eq (data : StatusData) (gen : Generation) :
    (mergeGeneration data gen).upscaled_urls =
      if isUpscaleOf gen then [] else upscaledUrlsOf data := by
  unfold mergeGeneration
  by_cases h : isUpscaleOf gen = true <;> simp [h]

theorem mergeGeneration_buttons_eq (data : StatusData) (gen : Generation) :
    (mergeGeneration data gen).buttons =
      if isUpscaleOf gen || truthyStr gen.variantOf then [] else arrayOrEmpty data.buttons := by
  unfold mergeGeneration
  by_cases h : isUpscaleOf gen = true <;> simp [h]

theorem mergeGeneration_image_cases (data : StatusData) (gen : Generation) :
    (truthyStr data.image = true → (mergeGeneration data gen).image = data.image) ∧
      (truthyStr data.image = false → truthyStr data.external_img = true →
        (mergeGeneration data gen).image = data.external_img) ∧
      (truthyStr data.image = false → truthyStr data.external_img = false →
        (mergeGeneration data gen).image = gen.image) := by
  obtain ⟨c1, c2, c3⟩ := imageUrlOf_cases data
  rw [mergeGeneration_image_eq]
  refine ⟨fun h => ?_, fun h1 h2 => ?_, fun h1 h2 => ?_⟩
  · rw [c1 h, orStr_of_truthy _ _ h]
  · rw [c2 h1 h2, orStr_of_truthy _ _ h2]
  · rw [c3 h1 h2, orStr_of_falsy none gen.image rfl]

/-- C5: a snapshot that lacks `source_image` (absent, null or empty) leaves the stored
`source_image` of the merged record as it was, for a job of any kind; a snapshot that
carries a `source_image` replaces it. -/
theorem mergeGeneration_source_image (data : StatusData) (gen : Generation) :
    ((data.source_image = none ∨ data.source_image = some "") →
        (mergeGeneration data gen).source_image = gen.source_image) ∧
      (∀ s : String, s ≠ "" → data.source_image = some s →
        (mergeGeneration data gen).source_image = some s) := by
  rw [mergeGeneration_source_image_eq]
  constructor
  · intro h
    exact orStr_of_falsy _ _ ((truthyStr_eq_false_iff _).mpr h)
  · intro s hs hd
    rw [hd]
    exact orStr_of_truthy _ _ (by simp [truthyStr, hs])

/-- Witness of C5: the stored source image `src` survives a snapshot without
`source_image` and is replaced by a snapshot that carries `src2`. -/
theorem mergeGeneration_source_image_witness :
    (mergeGeneration snapshotProcessing
        { sampleInitial with source_image := some "src" }).source_image = some "src" ∧
      (mergeGeneration { snapshotProcessing with source_image := some "src2" }
        { sampleInitial with source_image := some "src" }).source_image = some "src2" :=
  ⟨(mergeGeneration_source_image snapshotProcessing
      { sampleInitial with source_image := some "src" }).1 (Or.inl rfl),
    (mergeGeneration_source_image { snapshotProcessing with source_image := some "src2" }
      { sampleInitial with source_image := some "src" }).2 "src2" (by decide) rfl⟩

/-- Counterexample to C6 as stated: the record of the sample Initial job stores one
derived image, two available actions and one consumed action; a snapshot that omits
`upscaled_urls`, `buttons` and `used_buttons` does not leave them unchanged, it empties
all three. -/
theorem merge_omitted_lists_not_kept :
    (snapshotProcessing.upscaled_urls = none ∧ snapshotProcessing.buttons = none ∧
        snapshotProcessing.used_buttons = none) ∧
      (samplePartial.upscaled_urls = ["u1"] ∧ samplePartial.buttons = ["U1", "V1"] ∧
        samplePartial.used_buttons = ["U1"]) ∧
      (mergeGeneration snapshotProcessing samplePartial).upscaled_urls = [] ∧
      (mergeGeneration snapshotProcessing samplePartial).buttons = [] ∧
      (mergeGeneration snapshotProcessing samplePartial).used_buttons = [] ∧
      ¬ ((mergeGeneration snapshotProcessing samplePartial).upscaled_urls =
            samplePartial.upscaled_urls ∧
          (mergeGeneration snapshotProcessing samplePartial).buttons = samplePartial.buttons ∧
          (mergeGeneration snapshotProcessing samplePartial).used_buttons =
            samplePartial.used_buttons) := by
  decide

/-- C6, amended: the string fields fall back, the list fields do not. An image (when
the snapshot has neither `image` nor `external_img`), a source image, a prompt and an
origin prompt that the snapshot omits are unchanged by the merge; the stored derived image
list, available actions and consumed actions are replaced by the lists of the snapshot, an
omitted list counting as empty, with the derived list and the available actions empty for
an Upscale job and the available actions empty for a job with a parent; status takes the
value of the snapshot, and prompt does when the snapshot carries one. -/
theorem mergeGeneration_fallback (data : StatusData) (gen : Generation) :
    (truthyStr data.image = false → truthyStr data.external_img = false →
        (mergeGeneration data gen).image = gen.image) ∧
      (truthyStr data.source_image = false →
        (mergeGeneration data gen).source_image = gen.source_image) ∧
      (truthyStr data.prompt = false → (mergeGeneration data gen).prompt = gen.prompt) ∧
      (truthyStr data.origin_prompt = false →
        (mergeGeneration data gen).origin_prompt = gen.origin_prompt) ∧
      (mergeGeneration data gen).upscaled_urls =
        (if isUpscaleOf gen then [] else arrayOrEmpty data.upscaled_urls) ∧
      (mergeGeneration data gen).buttons =
        (if isUpscaleOf gen || truthyStr gen.variantOf then []
          else arrayOrEmpty data.buttons) ∧
      (mergeGeneration data gen).used_buttons = arrayOrEmpty data.used_buttons ∧
      (mergeGeneration data gen).status = data.image_status ∧
      (truthyStr data.prompt = true → (mergeGeneration data gen).prompt = data.prompt) := by
  refine ⟨(mergeGeneration_image_cases data gen).2.2, ?_, ?_, ?_, ?_,
    mergeGeneration_buttons_eq data gen, mergeGeneration_used_buttons_eq data gen,
    mergeGeneration_status_eq data gen, ?_⟩
  · intro h
    rw [mergeGeneration_source_image_eq, orStr_of_falsy _ _ h]
  · intro h
    rw [mergeGeneration_prompt_eq, orStr_of_falsy _ _ h]
  · intro h
    rw [mergeGeneration_origin_prompt_eq, orStr_of_falsy _ _ h]
  · rw [mergeGeneration_upscaled_urls_eq]
    rfl
  · intro h
    rw [mergeGeneration_prompt_eq, orStr_of_truthy _ _ h]

/-- Witness of C6, amended: on the sample record and the snapshot that carries only a
status, the four string fields are kept and the status is the one of the snapshot. -/
theorem mergeGeneration_fallback_witness :
    (mergeGeneration snapshotProcessing samplePartial).image = samplePartial.image ∧
      (mergeGeneration snapshotProcessing samplePartial).source_image =
        samplePartial.source_image ∧
      (mergeGeneration snapshotProcessing samplePartial).prompt = samplePartial.prompt ∧
      (mergeGeneration snapshotProcessing samplePartial).origin_prompt =
        samplePartial.origin_prompt ∧
      (mergeGeneration snapshotCompleted samplePartial).prompt = some "a cat, 4k" :=
  ⟨(mergeGeneration_fallback snapshotProcessing samplePartial).1 rfl rfl,
    (mergeGeneration_fallback snapshotProcessing samplePartial).2.1 rfl,
    (mergeGeneration_fallback snapshotProcessing samplePartial).2.2.1 rfl,
    (mergeGeneration_fallback snapshotProcessing samplePartial).2.2.2.1 rfl,
    (mergeGeneration_fallback snapshotCompleted samplePartial).2.2.2.2.2.2.2.2 (by decide)⟩

/-- C7: for a job that is not an Upscale, the merge stores exactly the `upscaled_urls` of
the snapshot (same elements, same order; none when the snapshot has none), the image of
the snapshot (`image`, else `external_img`) when it carries one and the previous image
otherwise, the `used_buttons` of the snapshot, and, for a job with no parent, the
`buttons` of the snapshot. -/
theorem mergeGeneration_other_stores (data : StatusData) (gen : Generation)
    (hkind : isUpscaleOf gen = false) :
    (∀ urls, data.upscaled_urls = some urls →
        (mergeGeneration data gen).upscaled_urls = urls) ∧
      (data.upscaled_urls = none → (mergeGeneration data gen).upscaled_urls = []) ∧
      (truthyStr data.image = true → (mergeGeneration data gen).image = data.image) ∧
      (truthyStr data.image = false → truthyStr data.external_img = true →
        (mergeGeneration data gen).image = data.external_img) ∧
      (truthyStr data.image = false → truthyStr data.external_img = false →
        (mergeGeneration data gen).image = gen.image) ∧
      (∀ used, data.used_buttons = some used →
        (mergeGeneration data gen).used_buttons = used) ∧
      (data.used_buttons = none → (mergeGeneration data gen).used_buttons = []) ∧
      (gen.variantOf = none →
        (∀ buttons, data.buttons = some buttons →
          (mergeGeneration data gen).buttons = buttons) ∧
        (data.buttons = none → (mergeGeneration data gen).buttons = [])) := by
  obtain ⟨i1, i2, i3⟩ := mergeGeneration_image_cases data gen
  have hu := mergeGeneration_upscaled_urls_eq data gen
  have hb := mergeGeneration_buttons_eq data gen
  have hused := mergeGeneration_used_buttons_eq data gen
  simp only [hkind, Bool.false_or] at hu hb
  refine ⟨?_, ?_, i1, i2, i3, ?_, ?_, ?_⟩
  · intro urls h
    simp [hu, upscaledUrlsOf, h]
  · intro h
    simp [hu, upscaledUrlsOf, h]
  · intro used h
    simp [hused, arrayOrEmpty, h]
  · intro h
    simp [hused, arrayOrEmpty, h]
  · intro hv
    have hfalsy : truthyStr gen.variantOf = false := by simp [hv, truthyStr]
    simp only [hfalsy] at hb
    constructor
    · intro buttons h
      simp [hb, arrayOrEmpty, h]
    · intro h
      simp [hb, arrayOrEmpty, h]

/-- Witness of C7: the sample Initial job and the Completed snapshot; the four derived
images, the consumed action and the two available actions of the snapshot are stored. -/
theorem mergeGeneration_other_stores_witness :
    isUpscaleOf sampleInitial = false ∧
      (mergeGeneration snapshotCompleted sampleInitial).upscaled_urls =
        ["u1", "u2", "u3", "u4"] ∧
      (mergeGeneration snapshotCompleted sampleInitial).used_buttons = ["U1"] ∧
      (mergeGeneration snapshotCompleted sampleInitial).buttons = ["U1", "V1"] :=
  ⟨by decide,
    (mergeGeneration_other_stores snapshotCompleted sampleInitial (by decide)).1 _ rfl,
    (mergeGeneration_other_stores snapshotCompleted sampleInitial
      (by decide)).2.2.2.2.2.1 _ rfl,
    ((mergeGeneration_other_stores snapshotCompleted sampleInitial
      (by decide)).2.2.2.2.2.2.2 rfl).1 _ rfl⟩

/-! ## The merge replaces only the matching entry -/

theorem pollStatus_generations (imageId : String) (fetched : Option StatusResponse)
    (st : DemoState) :
    (pollStatus imageId fetched st).generations = st.generations ∨
      ∃ data, (pollStatus imageId fetched st).generations =
        st.generations.map (fun g => if g.id == imageId then mergeGeneration data g else g) := by
  cases fetched with
  | none => exact Or.inl rfl
  | some response =>
      obtain ⟨success, data⟩ := response
      cases data with
      | none => exact Or.inl rfl
      | some data =>
          cases success with
          | false => exact Or.inl rfl
          | true =>
              refine Or.inr ⟨data, ?_⟩
              simp only [pollStatus, if_true, mergeAll_generations]

theorem mergeGeneration_frame (data : StatusData) (gen : Generation) :
    (mergeGeneration data gen).id = gen.id ∧
      (mergeGeneration data gen).isUpscale = gen.isUpscale ∧
      (mergeGeneration data gen).button = gen.button ∧
      (mergeGeneration data gen).variantOf = gen.variantOf ∧
      (mergeGeneration data gen).scale = gen.scale ∧
      (mergeGeneration data gen).sourceImageUrl = gen.sourceImageUrl ∧
      (mergeGeneration data gen).createdAt = gen.createdAt := by
  unfold mergeGeneration
  by_cases h : isUpscaleOf gen = true <;> simp [h]

/-- C9: the merge replaces only the matching entry. The merged list has the same length
and the same ids in the same order; position by position, a job whose id differs from the
polled id is unchanged in every field, and every job keeps its id, its kind (`isUpscale`,
`button`, hence its classification), its parent reference, its aspect ratio and its
`createdAt`; when no job has the polled id the list is unchanged. -/
theorem pollStatus_frame (imageId : String) (fetched : Option StatusResponse)
    (st : DemoState) :
    (pollStatus imageId fetched st).generations.length = st.generations.length ∧
      (pollStatus imageId fetched st).generations.map (fun g => g.id) =
        st.generations.map (fun g => g.id) ∧
      List.Forall₂
        (fun old new =>
          (old.id ≠ imageId → new = old) ∧ new.id = old.id ∧
            new.isUpscale = old.isUpscale ∧ new.button = old.button ∧
            isUpscaleOf new = isUpscaleOf old ∧ new.variantOf = old.variantOf ∧
            new.scale = old.scale ∧ new.createdAt = old.createdAt)
        st.generations (pollStatus imageId fetched st).generations ∧
      ((∀ g ∈ st.generations, g.id ≠ imageId) →
        (pollStatus imageId fetched st).generations = st.generations) := by
  rcases pollStatus_generations imageId fetched st with h | ⟨data, h⟩
  · rw [h]
    refine ⟨rfl, rfl, ?_, fun _ => rfl⟩
    rw [List.forall₂_same]
    intro g _
    exact ⟨fun _ => rfl, rfl, rfl, rfl, rfl, rfl, rfl, rfl⟩
  · rw [h]
    refine ⟨by simp, ?_, ?_, ?_⟩
    · rw [List.map_map]
      apply List.map_congr_left
      intro g _
      by_cases hid : g.id = imageId <;> simp [hid, mergeGeneration_id]
    · rw [List.forall₂_map_right_iff, List.forall₂_same]
      intro g _
      obtain ⟨f1, f2, f3, f4, f5, _, f7⟩ := mergeGeneration_frame data g
      by_cases hid : g.id = imageId
      · simp [hid]
        subst hid
        exact ⟨f1, f2, f3, mergeGeneration_isUpscaleOf data g, f4, f5, f7⟩
      · simp [hid]
    · intro hno
      conv_rhs => rw [← List.map_id st.generations]
      apply List.map_congr_left
      intro g hg
      simp [hno g hg]

/-- Witness of C9: polling `B` in the sample state with a Completed snapshot leaves the
records of `C` and `A` as they were, and the ids in the same order. -/
theorem pollStatus_frame_witness :
    (pollStatus "B" (some ⟨true, some snapshotUpscaled⟩) sampleState).generations.map
        (fun g => g.id) = ["C", "B", "A"] ∧
      (pollStatus "Z" (some ⟨true, some snapshotUpscaled⟩) sampleState).generations =
        sampleState.generations :=
  ⟨(pollStatus_frame "B" (some ⟨true, some snapshotUpscaled⟩) sampleState).2.1,
    (pollStatus_frame "Z" (some ⟨true, some snapshotUpscaled⟩) sampleState).2.2.2
      (by decide)⟩

/-! ## Invariants of the runs -/

theorem createVariant_some (auth : Option SessionAuth) (imageId button : String)
    (provider : ProviderOutcome) (response : CreateResponse)
    (h : createVariant auth imageId button provider = some response) :
    truthyStr (some imageId) = true ∧ truthyStr (some button) = true := by
  unfold createVariant variantRoute at h
  cases hauth : getAuthHeaders auth with
  | error message => simp [hauth] at h
  | ok headers =>
      by_cases hv : (!truthyStr (some imageId) || !truthyStr (some button)) = true
      · simp [hauth, hv] at h
      · simpa using hv

theorem step_generations (st : DemoState) (event : Event) :
    (step st event).generations = st.generations ∨
      (∃ prompt scale sourceImageUrl data now,
        (step st event).generations =
          newGenerationOfPrompt prompt scale sourceImageUrl data now :: st.generations) ∨
      (∃ imageId button parentGen data now, truthyStr (some imageId) = true ∧
        (step st event).generations =
          newGenerationOfButton imageId button parentGen data now :: st.generations) ∨
      (∃ imageId data, (step st event).generations =
        st.generations.map
          (fun g => if g.id == imageId then mergeGeneration data g else g)) := by
  cases event with
  | generate prompt scale sourceImageUrl fetched now interval =>
      cases fetched with
      | none => exact Or.inl rfl
      | some response =>
          obtain ⟨success, data, e, m, c⟩ := response
          cases data with
          | none => exact Or.inl rfl
          | some data =>
              cases success with
              | false => exact Or.inl rfl
              | true => exact Or.inr (Or.inl ⟨prompt, scale, sourceImageUrl, data, now, rfl⟩)
  | variant imageId button auth provider now interval =>
      simp only [step]
      cases hc : createVariant auth imageId button provider with
      | none => exact Or.inl rfl
      | some response =>
          have htruthy := (createVariant_some auth imageId button provider response hc).1
          obtain ⟨success, data, e, m, c⟩ := response
          cases data with
          | none => exact Or.inl rfl
          | some data =>
              cases success with
              | false => exact Or.inl rfl
              | true =>
                  exact Or.inr (Or.inr (Or.inl ⟨imageId, button,
                    st.generations.find? (fun gen => gen.id == imageId), data, now,
                    htruthy, rfl⟩))
  | poll imageId fetched =>
      rcases pollStatus_generations imageId fetched st with h | ⟨data, h⟩
      · exact Or.inl h
      · exact Or.inr (Or.inr (Or.inr ⟨imageId, data, h⟩))

theorem run_invariant (P : Generation → Prop)
    (hprompt : ∀ prompt scale sourceImageUrl data now,
      P (newGenerationOfPrompt prompt scale sourceImageUrl data now))
    (hbutton : ∀ imageId button parentGen data now, truthyStr (some imageId) = true →
      P (newGenerationOfButton imageId button parentGen data now))
    (hmerge : ∀ data gen, P gen → P (mergeGeneration data gen))
    (events : List Event) : ∀ g ∈ (run events).generations, P g := by
  have hstep : ∀ st event, (∀ g ∈ st.generations, P g) →
      ∀ g ∈ (step st event).generations, P g := by
    intro st event hst g hg
    rcases step_generations st event with h | ⟨p, s, u, d, n, h⟩ | ⟨i, b, pg, d, n, ht, h⟩ |
      ⟨i, d, h⟩
    · rw [h] at hg
      exact hst g hg
    · rw [h, List.mem_cons] at hg
      rcases hg with rfl | hg
      · exact hprompt p s u d n
      · exact hst g hg
    · rw [h, List.mem_cons] at hg
      rcases hg with rfl | hg
      · exact hbutton i b pg d n ht
      · exact hst g hg
    · rw [h, List.mem_map] at hg
      obtain ⟨g0, hg0, rfl⟩ := hg
      by_cases hid : g0.id = i
      · simp only [hid, beq_self_eq_true, if_true]
        exact hmerge d g0 (hst g0 hg0)
      · simp only [beq_iff_eq, hid, if_false]
        exact hst g0 hg0
  have hfold : ∀ (evs : List Event) (st : DemoState), (∀ g ∈ st.generations, P g) →
      ∀ g ∈ (evs.foldl step st).generations, P g := by
    intro evs
    induction evs with
    | nil => exact fun st hst => hst
    | cons event rest ih => exact fun st hst => ih (step st event) (hstep st event hst)
  exact hfold events initialState (by simp [initialState])

theorem mergeMany_invariant (P : Generation → Prop)
    (hmerge : ∀ data gen, P gen → P (mergeGeneration data gen))
    (snapshots : List StatusData) : ∀ gen, P gen → P (mergeMany gen snapshots) := by
  induction snapshots with
  | nil => exact fun gen h => h
  | cons data rest ih => exact fun gen h => ih (mergeGeneration data gen) (hmerge data gen h)

theorem parent_merge_invariant (data : StatusData) (gen : Generation)
    (h : gen.variantOf ≠ none → truthyStr gen.variantOf = true ∧ gen.buttons = []) :
    (mergeGeneration data gen).variantOf ≠ none →
      truthyStr (mergeGeneration data gen).variantOf = true ∧
        (mergeGeneration data gen).buttons = [] := by
  rw [mergeGeneration_variantOf, mergeGeneration_buttons_eq]
  intro hv
  have ht := (h hv).1
  simp [ht]

theorem upscale_merge_invariant (data : StatusData) (gen : Generation)
    (_h : isUpscaleOf gen = true → gen.upscaled_urls = [] ∧ gen.buttons = []) :
    isUpscaleOf (mergeGeneration data gen) = true →
      (mergeGeneration data gen).upscaled_urls = [] ∧
        (mergeGeneration data gen).buttons = [] := by
  rw [mergeGeneration_isUpscaleOf, mergeGeneration_buttons_eq,
    mergeGeneration_upscaled_urls_eq]
  intro hk
  simp [hk]

/-- C4: a job with a parent never has available actions. In every run of the tracker,
whatever the provider answers, a job whose `variantOf` is set has an empty `buttons` list:
at its creation by `handleCreateVariant` and after every merge, and it stays empty under
any further sequence of snapshots, for a Variant and for an Upscale alike. -/
theorem parent_has_no_buttons (events : List Event) (g : Generation)
    (hg : g ∈ (run events).generations) (hparent : g.variantOf ≠ none)
    (snapshots : List StatusData) :
    g.buttons = [] ∧ (mergeMany g snapshots).buttons = [] := by
  have hP : g.variantOf ≠ none → truthyStr g.variantOf = true ∧ g.buttons = [] :=
    run_invariant
      (fun g => g.variantOf ≠ none → truthyStr g.variantOf = true ∧ g.buttons = [])
      (fun _ _ _ _ _ hv => absurd rfl hv)
      (fun _ _ _ _ _ ht _ => ⟨ht, rfl⟩)
      parent_merge_invariant events g hg
  have hM := mergeMany_invariant
    (fun g => g.variantOf ≠ none → truthyStr g.variantOf = true ∧ g.buttons = [])
    parent_merge_invariant snapshots g hP
  have hsame : (mergeMany g snapshots).variantOf = g.variantOf :=
    mergeMany_invariant (fun x => x.variantOf = g.variantOf)
      (fun data gen h => (mergeGeneration_variantOf data gen).trans h) snapshots g rfl
  exact ⟨(hP hparent).2, (hM (by rw [hsame]; exact hparent)).2⟩

/-- Witness of C4: the Variant job `C` of the sample run, polled with a snapshot that
reports two buttons, stores none, also after two more such snapshots. -/
theorem parent_has_no_buttons_witness :
    (sampleRunVariant ∈ (run sampleEvents).generations ∧
        sampleRunVariant.variantOf ≠ none) ∧
      sampleRunVariant.buttons = [] ∧
      (mergeMany sampleRunVariant [snapshotCompleted, snapshotUpscaled]).buttons = [] :=
  ⟨⟨by decide, by decide⟩,
    parent_has_no_buttons sampleEvents sampleRunVariant (by decide) (by decide)
      [snapshotCompleted, snapshotUpscaled]⟩

/-- C8: an Upscale job never stores derived images or available actions. In every run of
the tracker a job classified as Upscale has empty `upscaled_urls` and `buttons`, at its
creation and after every merge, and they stay empty under any further sequence of
snapshots, whatever these report; each merge stores the image of the snapshot (`image`,
else `external_img`) when it carries one and keeps the stored image otherwise, and stores
the `used_buttons` of the snapshot as consumed actions. -/
theorem upscale_lists_stay_empty (events : List Event) (g : Generation)
    (hg : g ∈ (run events).generations) (hkind : isUpscaleOf g = true)
    (snapshots : List StatusData) (data : StatusData) :
    (g.upscaled_urls = [] ∧ g.buttons = []) ∧
      ((mergeMany g snapshots).upscaled_urls = [] ∧ (mergeMany g snapshots).buttons = []) ∧
      (truthyStr data.image = true → (mergeGeneration data g).image = data.image) ∧
      (truthyStr data.image = false → truthyStr data.external_img = true →
        (mergeGeneration data g).image = data.external_img) ∧
      (truthyStr data.image = false → truthyStr data.external_img = false →
        (mergeGeneration data g).image = g.image) ∧
      (∀ used, data.used_buttons = some used →
        (mergeGeneration data g).used_buttons = used) ∧
      (data.used_buttons = none → (mergeGeneration data g).used_buttons = []) := by
  have hP : isUpscaleOf g = true → g.upscaled_urls = [] ∧ g.buttons = [] :=
    run_invariant (fun g => isUpscaleOf g = true → g.upscaled_urls = [] ∧ g.buttons = [])
      (fun _ _ _ _ _ _ => ⟨rfl, rfl⟩)
      (fun _ _ _ _ _ _ _ => ⟨rfl, rfl⟩)
      upscale_merge_invariant events g hg
  have hM := mergeMany_invariant
    (fun g => isUpscaleOf g = true → g.upscaled_urls = [] ∧ g.buttons = [])
    upscale_merge_invariant snapshots g hP
  have hsame : isUpscaleOf (mergeMany g snapshots) = isUpscaleOf g :=
    mergeMany_invariant (fun x => isUpscaleOf x = isUpscaleOf g)
      (fun data gen h => (mergeGeneration_isUpscaleOf data gen).trans h) snapshots g rfl
  obtain ⟨i1, i2, i3⟩ := mergeGeneration_image_cases data g
  have hused := mergeGeneration_used_buttons_eq data g
  refine ⟨hP hkind, hM (by rw [hsame]; exact hkind), i1, i2, i3, ?_, ?_⟩
  · intro used h
    simp [hused, arrayOrEmpty, h]
  · intro h
    simp [hused, arrayOrEmpty, h]

/-- Witness of C8: the Upscale job `B` of the sample run, polled with a snapshot that
reports a button, stores no derived image and no button, also after two snapshots that
report derived images and buttons. -/
theorem upscale_lists_stay_empty_witness :
    (sampleRunUpscale ∈ (run sampleEvents).generations ∧
        isUpscaleOf sampleRunUpscale = true) ∧
      (sampleRunUpscale.upscaled_urls = [] ∧ sampleRunUpscale.buttons = []) ∧
      (mergeMany sampleRunUpscale [snapshotCompleted, snapshotPartial]).upscaled_urls = [] ∧
      (mergeMany sampleRunUpscale [snapshotCompleted, snapshotPartial]).buttons = [] ∧
      (mergeGeneration snapshotCompleted sampleRunUpscale).image = some "img" ∧
      (mergeGeneration snapshotCompleted sampleRunUpscale).used_buttons = ["U1"] :=
  ⟨⟨by decide, by decide⟩,
    (upscale_lists_stay_empty sampleEvents sampleRunUpscale (by decide) (by decide)
      [snapshotCompleted, snapshotPartial] snapshotCompleted).1,
    (upscale_lists_stay_empty sampleEvents sampleRunUpscale (by decide) (by decide)
      [snapshotCompleted, snapshotPartial] snapshotCompleted).2.1.1,
    (upscale_lists_stay_empty sampleEvents sampleRunUpscale (by decide) (by decide)
      [snapshotCompleted, snapshotPartial] snapshotCompleted).2.1.2,
    (upscale_lists_stay_empty sampleEvents sampleRunUpscale (by decide) (by decide)
      [snapshotCompleted, snapshotPartial] snapshotCompleted).2.2.2.2.1 rfl rfl,
    (upscale_lists_stay_empty sampleEvents sampleRunUpscale (by decide) (by decide)
      [snapshotCompleted, snapshotPartial] snapshotCompleted).2.2.2.2.2.1 _ rfl⟩

/-! ## Consumed actions and available actions -/

theorem buttons_subset_history (snapshots : List StatusData) :
    ∀ gen, (mergeMany gen snapshots).buttons ⊆ buttonsHistory gen snapshots := by
  induction snapshots with
  | nil => exact fun gen => List.Subset.refl _
  | cons data rest ih =>
      intro gen
      exact List.subset_append_of_subset_right _ (ih (mergeGeneration data gen))

theorem root_used_subset_buttons (snapshots : List StatusData) :
    ∀ gen, truthyStr gen.variantOf = false → isUpscaleOf gen = false →
      gen.used_buttons ⊆ gen.buttons →
      (∀ data ∈ snapshots, arrayOrEmpty data.used_buttons ⊆ arrayOrEmpty data.buttons) →
      (mergeMany gen snapshots).used_buttons ⊆ (mergeMany gen snapshots).buttons := by
  induction snapshots with
  | nil => exact fun gen _ _ h _ => h
  | cons data rest ih =>
      intro gen hroot hkind _ hsnap
      apply ih (mergeGeneration data gen)
      · rw [mergeGeneration_variantOf]
        exact hroot
      · rw [mergeGeneration_isUpscaleOf]
        exact hkind
      · rw [mergeGeneration_used_buttons_eq, mergeGeneration_buttons_eq]
        simp only [hkind, hroot, Bool.or_self, Bool.false_eq_true, if_false]
        exact hsnap data (List.mem_cons_self _ _)
      · exact fun d hd => hsnap d (List.mem_cons_of_mem _ hd)

/-- Counterexample to C10 as stated: the sample Variant job merges a snapshot whose
`used_buttons` are among its own `buttons`, and the sample Initial job merges a snapshot
that reports a consumed action and no available action; in both cases the record stores
the consumed action `U1` while no `buttons` list the record ever stored contains it. -/
theorem used_buttons_not_subset_history :
    ((mergeMany sampleVariant [snapshotCompleted]).used_buttons = ["U1"] ∧
        buttonsHistory sampleVariant [snapshotCompleted] = [] ∧
        ¬ ((mergeMany sampleVariant [snapshotCompleted]).used_buttons ⊆
            buttonsHistory sampleVariant [snapshotCompleted])) ∧
      ((mergeMany sampleInitial [snapshotUsedOnly]).used_buttons = ["U1"] ∧
        buttonsHistory sampleInitial [snapshotUsedOnly] = [] ∧
        ¬ ((mergeMany sampleInitial [snapshotUsedOnly]).used_buttons ⊆
            buttonsHistory sampleInitial [snapshotUsedOnly])) := by
  have h1 : (mergeMany sampleVariant [snapshotCompleted]).used_buttons = ["U1"] := by decide
  have h2 : buttonsHistory sampleVariant [snapshotCompleted] = [] := by decide
  have h3 : (mergeMany sampleInitial [snapshotUsedOnly]).used_buttons = ["U1"] := by decide
  have h4 : buttonsHistory sampleInitial [snapshotUsedOnly] = [] := by decide
  refine ⟨⟨h1, h2, ?_⟩, ⟨h3, h4, ?_⟩⟩
  · rw [h1, h2]
    simp
  · rw [h3, h4]
    simp

/-- C10, amended: the stored consumed actions are empty at creation and after each merge
they are the `used_buttons` of the merged snapshot (none when it reports none), whatever
available actions the record stores; they are a subset of the available actions the job
has stored whenever the job has no parent, is not an Upscale, and the `used_buttons` of
every merged snapshot are among the `buttons` of that snapshot. -/
theorem used_buttons_subset_history (gen : Generation) (snapshots : List StatusData)
    (data : StatusData) :
    (∀ prompt scale sourceImageUrl created now,
        (newGenerationOfPrompt prompt scale sourceImageUrl created now).used_buttons = []) ∧
      (∀ imageId button parentGen created now,
        (newGenerationOfButton imageId button parentGen created now).used_buttons = []) ∧
      (mergeGeneration data gen).used_buttons = arrayOrEmpty data.used_buttons ∧
      (truthyStr gen.variantOf = false → isUpscaleOf gen = false →
        gen.used_buttons ⊆ gen.buttons →
        (∀ d ∈ snapshots, arrayOrEmpty d.used_buttons ⊆ arrayOrEmpty d.buttons) →
        (mergeMany gen snapshots).used_buttons ⊆ (mergeMany gen snapshots).buttons ∧
          (mergeMany gen snapshots).used_buttons ⊆ buttonsHistory gen snapshots) := by
  refine ⟨fun _ _ _ _ _ => rfl, fun _ _ _ _ _ => rfl,
    mergeGeneration_used_buttons_eq data gen, ?_⟩
  intro hroot hkind hstart hsnap
  have h := root_used_subset_buttons snapshots gen hroot hkind hstart hsnap
  exact ⟨h, List.Subset.trans h (buttons_subset_history snapshots gen)⟩

/-- Witness of C10, amended: the sample Initial job and two snapshots whose consumed
actions are among their buttons. -/
theorem used_buttons_subset_history_witness :
    (truthyStr sampleInitial.variantOf = false ∧ isUpscaleOf sampleInitial = false ∧
        sampleInitial.used_buttons ⊆ sampleInitial.buttons ∧
        (∀ d ∈ [snapshotPartial, snapshotCompleted],
          arrayOrEmpty d.used_buttons ⊆ arrayOrEmpty d.buttons)) ∧
      (mergeMany sampleInitial [snapshotPartial, snapshotCompleted]).used_buttons ⊆
        buttonsHistory sampleInitial [snapshotPartial, snapshotCompleted] :=
  ⟨⟨by decide, by decide, by decide, by decide⟩,
    ((used_buttons_subset_history sampleInitial [snapshotPartial, snapshotCompleted]
      snapshotCompleted).2.2.2 (by decide) (by decide) (by decide) (by decide)).2⟩

/-! ## Registering jobs -/

theorem pollStatus_ids (imageId : String) (fetched : Option StatusResponse)
    (st : DemoState) :
    (pollStatus imageId fetched st).generations.map (fun g => g.id) =
      st.generations.map (fun g => g.id) := by
  rcases pollStatus_generations imageId fetched st with h | ⟨data, h⟩
  · rw [h]
  · rw [h, List.map_map]
    apply List.map_congr_left
    intro g _
    by_cases hid : g.id = imageId <;> simp [hid, mergeGeneration_id]

theorem pollMany_ids (polls : List (String × Option StatusResponse)) :
    ∀ st : DemoState, (pollMany polls st).generations.map (fun g => g.id) =
      st.generations.map (fun g => g.id) := by
  induction polls with
  | nil => exact fun st => rfl
  | cons p rest ih =>
      intro st
      exact (ih (pollStatus p.1 p.2 st)).trans (pollStatus_ids p.1 p.2 st)

theorem handleGenerate_success (prompt scale sourceImageUrl now : String)
    (response : CreateResponse) (data : CreateData) (interval : Nat) (st : DemoState)
    (hs : response.success = true) (hd : response.data = some data) :
    handleGenerate prompt scale sourceImageUrl (some response) now interval st =
      { generations :=
          newGenerationOfPrompt prompt scale sourceImageUrl data now :: st.generations
        pollingIntervals := startPolling data._id interval st.pollingIntervals } := by
  simp [handleGenerate, hs, hd]

theorem handleCreateVariant_success (imageId button now : String)
    (response : CreateResponse) (data : CreateData) (interval : Nat) (st : DemoState)
    (hs : response.success = true) (hd : response.data = some data) :
    handleCreateVariant imageId button (some response) now interval st =
      { generations :=
          newGenerationOfButton imageId button
            (st.generations.find? (fun gen => gen.id == imageId)) data now :: st.generations
        pollingIntervals := startPolling data._id interval st.pollingIntervals } := by
  simp [handleCreateVariant, hs, hd]

/-- C11: registering a job inserts it at the front of the job list. After a successful
create response, `handleGenerate` and `handleCreateVariant` leave the new job followed by
the previous list, every existing job unchanged and in its previous order; and whatever
polls follow, in whatever order the jobs complete, the new job stays above the older
ones. -/
theorem register_inserts_at_front (prompt scale sourceImageUrl imageId button now : String)
    (response : CreateResponse) (data : CreateData) (interval : Nat) (st : DemoState)
    (polls : List (String × Option StatusResponse))
    (hs : response.success = true) (hd : response.data = some data) :
    (handleGenerate prompt scale sourceImageUrl (some response) now interval
        st).generations =
        newGenerationOfPrompt prompt scale sourceImageUrl data now :: st.generations ∧
      (handleCreateVariant imageId button (some response) now interval st).generations =
        newGenerationOfButton imageId button
          (st.generations.find? (fun gen => gen.id == imageId)) data now ::
          st.generations ∧
      (pollMany polls (handleGenerate prompt scale sourceImageUrl (some response) now
        interval st)).generations.map (fun g => g.id) =
        data._id :: st.generations.map (fun g => g.id) ∧
      (pollMany polls (handleCreateVariant imageId button (some response) now interval
        st)).generations.map (fun g => g.id) =
        data._id :: st.generations.map (fun g => g.id) := by
  rw [pollMany_ids, pollMany_ids,
    handleGenerate_success prompt scale sourceImageUrl now response data interval st hs hd,
    handleCreateVariant_success imageId button now response data interval st hs hd]
  exact ⟨rfl, rfl, rfl, rfl⟩

/-- Witness of C11: a job `D` registered in the sample state, from a prompt and from the
action `V2` on `A`, stands above `C`, `B` and `A`, also after `A` and `D` are polled. -/
theorem register_inserts_at_front_witness :
    ((createdResponse ⟨"D", some 1, none⟩).success = true ∧
        (createdResponse ⟨"D", some 1, none⟩).data = some ⟨"D", some 1, none⟩) ∧
      (pollMany [("A", some ⟨true, some snapshotCompleted⟩), ("D", none)]
        (handleGenerate "a dog" "1:1" "" (some (createdResponse ⟨"D", some 1, none⟩)) "t3"
          10 sampleState)).generations.map (fun g => g.id) = ["D", "C", "B", "A"] ∧
      (pollMany [("A", some ⟨true, some snapshotCompleted⟩), ("D", none)]
        (handleCreateVariant "A" "V2" (some (createdResponse ⟨"D", some 1, none⟩)) "t3"
          10 sampleState)).generations.map (fun g => g.id) = ["D", "C", "B", "A"] :=
  ⟨⟨rfl, rfl⟩,
    (register_inserts_at_front "a dog" "1:1" "" "A" "V2" "t3"
      (createdResponse ⟨"D", some 1, none⟩) ⟨"D", some 1, none⟩ 10 sampleState
      [("A", some ⟨true, some snapshotCompleted⟩), ("D", none)] rfl rfl).2.2⟩

theorem pollStatus_success_generations (imageId : String) (data : StatusData)
    (st : DemoState) :
    (pollStatus imageId (some ⟨true, some data⟩) st).generations =
      st.generations.map (fun g => if g.id == imageId then mergeGeneration data g else g) := by
  simp only [pollStatus, if_true, mergeAll_generations]

theorem newGenerationOfButton_kind (imageId button : String) (parentGen : Option Generation)
    (data : CreateData) (now : String) :
    isUpscaleOf (newGenerationOfButton imageId button parentGen data now) =
      startsWith button "U" := by
  unfold isUpscaleOf newGenerationOfButton
  by_cases h : startsWith button "U" = true
  · simp [h]
  · simp only [Bool.not_eq_true] at h
    simp [h]

/-- C12: a job created from job `P` by action code `c` has parent reference `P` and action
code `c`; it is an Upscale when `c` is one of `U1..U4` and a Variant (not an Upscale) when
`c` is one of `V1..V4`; its creation leaves the previous list, `P` included, as it was
behind the new job; and after a later poll of `P` the consumed actions of `P` are the
`used_buttons` of that snapshot, so they hold `c` exactly when the snapshot reports it. -/
theorem created_from_action (parentId code now : String) (response : CreateResponse)
    (data : CreateData) (interval : Nat) (st : DemoState) (parent : Generation)
    (snapshot : StatusData)
    (hs : response.success = true) (hd : response.data = some data)
    (hparent : parent ∈ st.generations) (hid : parent.id = parentId) :
    (∀ parentGen,
        (newGenerationOfButton parentId code parentGen data now).variantOf = some parentId ∧
        (newGenerationOfButton parentId code parentGen data now).button = some code ∧
        (code ∈ ["U1", "U2", "U3", "U4"] →
          (newGenerationOfButton parentId code parentGen data now).isUpscale = some true ∧
          isUpscaleOf (newGenerationOfButton parentId code parentGen data now) = true) ∧
        (code ∈ ["V1", "V2", "V3", "V4"] →
          (newGenerationOfButton parentId code parentGen data now).isUpscale = some false ∧
          isUpscaleOf (newGenerationOfButton parentId code parentGen data now) = false)) ∧
      (handleCreateVariant parentId code (some response) now interval st).generations =
        newGenerationOfButton parentId code
          (st.generations.find? (fun gen => gen.id == parentId)) data now ::
          st.generations ∧
      parent ∈ (handleCreateVariant parentId code (some response) now interval
        st).generations ∧
      mergeGeneration snapshot parent ∈
        (pollStatus parentId (some ⟨true, some snapshot⟩)
          (handleCreateVariant parentId code (some response) now interval st)).generations ∧
      (code ∈ (mergeGeneration snapshot parent).used_buttons ↔
        code ∈ arrayOrEmpty snapshot.used_buttons) := by
  have hgens := congrArg DemoState.generations
    (handleCreateVariant_success parentId code now response data interval st hs hd)
  simp only at hgens
  refine ⟨?_, hgens, ?_, ?_, ?_⟩
  · intro parentGen
    have hkind := newGenerationOfButton_kind parentId code parentGen data now
    refine ⟨rfl, rfl, ?_, ?_⟩
    · intro hc
      have hU : startsWith code "U" = true := by
        simp only [List.mem_cons, List.mem_singleton, List.not_mem_nil, or_false] at hc
        rcases hc with rfl | rfl | rfl | rfl <;> decide
      exact ⟨by simp [newGenerationOfButton, hU], by rw [hkind, hU]⟩
    · intro hc
      have hV : startsWith code "U" = false := by
        simp only [List.mem_cons, List.mem_singleton, List.not_mem_nil, or_false] at hc
        rcases hc with rfl | rfl | rfl | rfl <;> decide
      exact ⟨by simp [newGenerationOfButton, hV], by rw [hkind, hV]⟩
  · rw [hgens]
    exact List.mem_cons_of_mem _ hparent
  · rw [pollStatus_success_generations, hgens, List.mem_map]
    exact ⟨parent, List.mem_cons_of_mem _ hparent, by simp [hid]⟩
  · rw [mergeGeneration_used_buttons_eq]

/-- Witness of C12: `U1` invoked on the completed job `A` creates the Upscale job `B`
with parent `A`; `A` has no consumed action until a poll of `A` reports `U1`. -/
theorem created_from_action_witness :
    ((createdResponse ⟨"B", some 1, none⟩).success = true ∧
        sampleParent ∈ sampleParentState.generations ∧ sampleParent.id = "A") ∧
      sampleParent.used_buttons = [] ∧
      isUpscaleOf (newGenerationOfButton "A" "U1" none ⟨"B", some 1, none⟩ "t1") = true ∧
      sampleParent ∈
        (handleCreateVariant "A" "U1" (some (createdResponse ⟨"B", some 1, none⟩)) "t1" 8
          sampleParentState).generations ∧
      "U1" ∈ (mergeGeneration snapshotCompleted sampleParent).used_buttons :=
  ⟨⟨rfl, by decide, by decide⟩, by decide,
    (((created_from_action "A" "U1" "t1" (createdResponse ⟨"B", some 1, none⟩)
      ⟨"B", some 1, none⟩ 8 sampleParentState sampleParent snapshotCompleted rfl rfl
      (by decide) (by decide)).1 none).2.2.1 (by decide)).2,
    (created_from_action "A" "U1" "t1" (createdResponse ⟨"B", some 1, none⟩)
      ⟨"B", some 1, none⟩ 8 sampleParentState sampleParent snapshotCompleted rfl rfl
      (by decide) (by decide)).2.2.1,
    (created_from_action "A" "U1" "t1" (createdResponse ⟨"B", some 1, none⟩)
      ⟨"B", some 1, none⟩ 8 sampleParentState sampleParent snapshotCompleted rfl rfl
      (by decide) (by decide)).2.2.2.2.mpr (by decide)⟩

/-! ## The job card -/

theorem hasStoredUpscaledUrls_eq_false_iff (g : Generation) :
    hasStoredUpscaledUrls g = false ↔ g.upscaled_urls = [] := by
  unfold hasStoredUpscaledUrls
  cases g.upscaled_urls <;> simp

theorem generationCard_eq_none_iff (g : Generation) :
    GenerationCard g = none ↔ isHidden g = true := by
  unfold GenerationCard
  by_cases h : isHidden g = true <;> simp [h]

theorem isHidden_iff (g : Generation) :
    isHidden g = true ↔
      (g.status = some 3 ∧
        ((isUpscaleOf g = true ∧ truthyStr g.image = false) ∨
          (isUpscaleOf g = false ∧ g.upscaled_urls = []))) := by
  rw [← hasStoredUpscaledUrls_eq_false_iff]
  unfold isHidden isCompletedOf hasStoredImage
  by_cases hc : g.status = some 3
  · by_cases hk : isUpscaleOf g = true
    · simp [hc, hk]
    · simp only [Bool.not_eq_true] at hk
      simp [hc, hk]
  · simp [hc]

/-- C13: a job card is hidden exactly when the stored status is 3 (Completed) and the
content condition of the kind fails: for an Upscale job the stored image is missing
(absent or empty), for an Initial or Variant job the stored `upscaled_urls` is empty; a
job whose status is 1 (Queued), 2 (Processing) or 4 (Failed) is shown. -/
theorem card_hidden_iff (g : Generation) :
    (GenerationCard g = none ↔
        (g.status = some 3 ∧
          ((isUpscaleOf g = true ∧ (g.image = none ∨ g.image = some "")) ∨
            (isUpscaleOf g = false ∧ g.upscaled_urls = [])))) ∧
      ((g.status = some 1 ∨ g.status = some 2 ∨ g.status = some 4) →
        ∃ card, GenerationCard g = some card) := by
  have hiff := (generationCard_eq_none_iff g).trans (isHidden_iff g)
  rw [truthyStr_eq_false_iff] at hiff
  refine ⟨hiff, ?_⟩
  intro hstatus
  cases hcard : GenerationCard g with
  | some card => exact ⟨card, rfl⟩
  | none =>
      have h3 := (hiff.mp hcard).1
      rcases hstatus with h | h | h <;> rw [h] at h3 <;> exact absurd h3 (by decide)

/-- Witness of C13: the sample Upscale job is shown while Queued, hidden once a snapshot
reports Completed without an image, and shown again once the image is stored. -/
theorem card_hidden_iff_witness :
    sampleUpscale.status = some 1 ∧
      (∃ card, GenerationCard sampleUpscale = some card) ∧
      GenerationCard (mergeGeneration snapshotFresh sampleUpscale) = none ∧
      GenerationCard (mergeGeneration snapshotUpscaled sampleUpscale) ≠ none :=
  ⟨rfl, (card_hidden_iff sampleUpscale).2 (Or.inl rfl),
    (card_hidden_iff (mergeGeneration snapshotFresh sampleUpscale)).1.mpr
      ⟨rfl, Or.inl ⟨by decide, Or.inl rfl⟩⟩,
    fun h => absurd ((card_hidden_iff (mergeGeneration snapshotUpscaled sampleUpscale)).1.mp h)
      (by decide)⟩

theorem run_parent_truthy (events : List Event) (g : Generation)
    (hg : g ∈ (run events).generations) (hparent : g.variantOf ≠ none) :
    truthyStr g.variantOf = true :=
  (run_invariant
    (fun g => g.variantOf ≠ none → truthyStr g.variantOf = true ∧ g.buttons = [])
    (fun _ _ _ _ _ hv => absurd rfl hv)
    (fun _ _ _ _ _ ht _ => ⟨ht, rfl⟩)
    parent_merge_invariant events g hg hparent).1

theorem showsActions_iff (g : Generation) :
    showsActions g = true ↔
      (g.status = some 3 ∧
        ((isUpscaleOf g = true ∧ truthyStr g.image = true) ∨
          (isUpscaleOf g = false ∧ g.upscaled_urls ≠ [])) ∧
        truthyStr g.variantOf = false ∧ g.buttons ≠ []) := by
  have hu : hasStoredUpscaledUrls g = true ↔ g.upscaled_urls ≠ [] := by
    unfold hasStoredUpscaledUrls
    cases g.upscaled_urls <;> simp
  have hb : decide (g.buttons.length > 0) = true ↔ g.buttons ≠ [] := by
    cases g.buttons <;> simp
  unfold showsActions isCompletedOf isVariantResult hasStoredImage
  simp only [Bool.and_eq_true, Bool.or_eq_true, Bool.not_eq_true', beq_iff_eq, hu, hb]
  tauto

theorem showsActions_not_hidden (g : Generation) (h : showsActions g = true) :
    isHidden g = false := by
  rw [← Bool.not_eq_true, isHidden_iff]
  obtain ⟨_, hcontent, _, _⟩ := (showsActions_iff g).mp h
  rintro ⟨_, hfail⟩
  rcases hcontent with ⟨k, hi⟩ | ⟨k, hu⟩ <;> rcases hfail with ⟨k2, hf⟩ | ⟨k2, hf⟩
  · rw [hi] at hf
    exact absurd hf (by decide)
  · rw [k] at k2
    exact absurd k2 (by decide)
  · rw [k] at k2
    exact absurd k2 (by decide)
  · exact hu hf

theorem generationCard_actions (g : Generation) (card : Card)
    (h : GenerationCard g = some card) :
    card.actions =
      if showsActions g then some (g.buttons.map (actionButtonOf g)) else none := by
  unfold GenerationCard at h
  by_cases hh : isHidden g = true
  · simp [hh] at h
  · simp only [hh] at h
    simp only [Bool.false_eq_true, if_false, Option.some.injEq] at h
    rw [← h]

/-- C14: the action row of a job card is rendered exactly when the job is Completed, has
content under the condition of its kind, has no parent (`variantOf` not set; for a job of
any run a rendered row means `variantOf` is absent) and stores a non-empty `buttons` list.
When rendered, the buttons are the stored `buttons` in order, each one disabled exactly
when its code is in the stored `used_buttons`, and a click on a disabled button invokes
nothing while a click on an enabled one invokes the action with the job id and the code. -/
theorem card_actions (g : Generation) :
    ((∃ card, GenerationCard g = some card ∧ card.actions ≠ none) ↔
        (g.status = some 3 ∧
          ((isUpscaleOf g = true ∧ truthyStr g.image = true) ∨
            (isUpscaleOf g = false ∧ g.upscaled_urls ≠ [])) ∧
          truthyStr g.variantOf = false ∧ g.buttons ≠ [])) ∧
      (∀ card row, GenerationCard g = some card → card.actions = some row →
        row.map (fun b => b.label) = g.buttons ∧
        row = g.buttons.map (actionButtonOf g) ∧
        ∀ b ∈ row,
          (b.disabled = true ↔ b.label ∈ g.used_buttons) ∧
          (b.disabled = true → b.onClick = none) ∧
          (b.disabled = false → b.onClick = some (g.id, b.label))) ∧
      (∀ events card, g ∈ (run events).generations → GenerationCard g = some card →
        card.actions ≠ none → g.variantOf = none) := by
  have hrendered : ∀ card, GenerationCard g = some card → card.actions ≠ none →
      showsActions g = true := by
    intro card hcard hact
    rw [generationCard_actions g card hcard] at hact
    by_cases hs : showsActions g = true
    · exact hs
    · simp [hs] at hact
  refine ⟨⟨?_, ?_⟩, ?_, ?_⟩
  · rintro ⟨card, hcard, hact⟩
    exact (showsActions_iff g).mp (hrendered card hcard hact)
  · intro hcond
    have hs := (showsActions_iff g).mpr hcond
    have hh := showsActions_not_hidden g hs
    cases hcard : GenerationCard g with
    | none =>
        rw [generationCard_eq_none_iff, hh] at hcard
        exact absurd hcard (by decide)
    | some card =>
        refine ⟨card, rfl, ?_⟩
        rw [generationCard_actions g card hcard]
        simp [hs]
  · intro card row hcard hrow
    have hs := hrendered card hcard (by rw [hrow]; simp)
    rw [generationCard_actions g card hcard] at hrow
    simp only [hs, if_true, Option.some.injEq] at hrow
    subst hrow
    refine ⟨?_, rfl, ?_⟩
    · rw [List.map_map]
      exact List.map_id _
    · intro b hb
      rw [List.mem_map] at hb
      obtain ⟨code, _, rfl⟩ := hb
      unfold actionButtonOf
      by_cases hused : g.used_buttons.contains code = true
      · simp [hused]
      · simp [hused]
  · intro events card hg hcard hact
    have hs := hrendered card hcard hact
    have hfalsy := ((showsActions_iff g).mp hs).2.2.1
    by_contra hne
    rw [run_parent_truthy events g hg hne] at hfalsy
    exact absurd hfalsy (by decide)

/-- Witness of C14: the card of the completed sample job `A`, which stores the actions
`U1` and `V1` and the consumed action `U1`, renders `U1` disabled, with no effect on a
click, and `V1` enabled. -/
theorem card_actions_witness :
    (sampleCompleted ∈ (run (sampleEvents.take 2)).generations ∧
        GenerationCard sampleCompleted = some sampleCompletedCard ∧
        sampleCompletedCard.actions =
          some [⟨"U1", true, none⟩, ⟨"V1", false, some ("A", "V1")⟩]) ∧
      sampleCompleted.variantOf = none ∧
      ([⟨"U1", true, none⟩, ⟨"V1", false, some ("A", "V1")⟩] : List ActionButton).map
        (fun b => b.label) = sampleCompleted.buttons :=
  ⟨⟨by decide, by decide, rfl⟩,
    (card_actions sampleCompleted).2.2 (sampleEvents.take 2) sampleCompletedCard
      (by decide) (by decide) (by decide),
    ((card_actions sampleCompleted).2.1 sampleCompletedCard _ (by decide) rfl).1⟩

/-! ## Failed polls -/

theorem getStatus_threw (auth : Option SessionAuth) (imageId message : String)
    (response : Option StatusProviderResponse) :
    getStatus auth imageId (.threw message response) = none := by
  unfold getStatus statusRoute
  cases hauth : getAuthHeaders auth with
  | error m => simp
  | ok headers =>
      by_cases hid : (!truthyStr (some imageId)) = true
      · simp [hid]
      · simp [hid]

theorem getStatus_unauthenticated (imageId : String) (provider : StatusProviderOutcome) :
    getStatus none imageId provider = none := by
  simp [getStatus, statusRoute, getAuthHeaders]

/-- C15: when the status fetch of a poll throws, the tick changes nothing: the job list
and the interval table after it are those before it, so no timer entry is cleared or
removed and polling continues, and a later poll is merged as if the failed tick had not
happened. The fetch throws in particular when the provider call of the status route
throws and when the session has no auth context. -/
theorem pollStatus_fetch_failure (imageId : String) (st : DemoState) :
    pollStatus imageId none st = st ∧
      (pollStatus imageId none st).generations = st.generations ∧
      (pollStatus imageId none st).pollingIntervals = st.pollingIntervals ∧
      (∀ later, pollStatus imageId later (pollStatus imageId none st) =
        pollStatus imageId later st) ∧
      (∀ auth message response,
        pollStatus imageId (getStatus auth imageId (.threw message response)) st = st) ∧
      (∀ provider, pollStatus imageId (getStatus none imageId provider) st = st) := by
  refine ⟨rfl, rfl, rfl, fun _ => rfl, ?_, ?_⟩
  · intro auth message response
    rw [getStatus_threw]
    rfl
  · intro provider
    rw [getStatus_unauthenticated]
    rfl

/-! ## The initial status of a job -/

theorem statusOrQueued_cases (s : Option Nat) :
    ((s = none ∨ s = some 0) → statusOrQueued s = 1) ∧
      (∀ n, n ≠ 0 → s = some n → statusOrQueued s = n) := by
  constructor
  · rintro (h | h) <;> simp [statusOrQueued, h]
  · intro n hn h
    simp [statusOrQueued, h, hn]

/-- Counterexample to C16 as stated: the create response reports the initial status 2
(Processing), and the job registered from it, by a prompt or by an action, is stored with
status 2, not with status 1 (Queued). -/
theorem registered_status_not_always_queued :
    (handleGenerate "a cat" "1:1" "" (some (createdResponse ⟨"A", some 2, none⟩)) "t0" 7
        initialState).generations.map (fun g => g.status) = [some 2] ∧
      (handleCreateVariant "A" "U1" (some (createdResponse ⟨"B", some 2, none⟩)) "t1" 8
        initialState).generations.map (fun g => g.status) = [some 2] ∧
      (newGenerationOfPrompt "a cat" "1:1" "" ⟨"A", some 2, none⟩ "t0").status ≠ some 1 ∧
      (newGenerationOfButton "A" "U1" none ⟨"B", some 2, none⟩ "t1").status ≠ some 1 := by
  decide

/-- C16, amended: a newly registered job, created from a prompt or from an action, starts
with the initial status that the create response reports, and with status 1 (Queued) when
the response reports none (the field is absent or 0). -/
theorem registered_status (prompt scale sourceImageUrl imageId button now : String)
    (parentGen : Option Generation) (data : CreateData) :
    ((data.image_status = none ∨ data.image_status = some 0) →
        (newGenerationOfPrompt prompt scale sourceImageUrl data now).status = some 1 ∧
        (newGenerationOfButton imageId button parentGen data now).status = some 1) ∧
      (∀ n, n ≠ 0 → data.image_status = some n →
        (newGenerationOfPrompt prompt scale sourceImageUrl data now).status = some n ∧
        (newGenerationOfButton imageId button parentGen data now).status = some n) := by
  obtain ⟨h1, h2⟩ := statusOrQueued_cases data.image_status
  constructor
  · intro h
    simp [newGenerationOfPrompt, newGenerationOfButton, h1 h]
  · intro n hn h
    simp [newGenerationOfPrompt, newGenerationOfButton, h2 n hn h]

/-- Witness of C16, amended: a response without a status registers a Queued job, a
response that reports status 2 registers a job with status 2. -/
theorem registered_status_witness :
    (newGenerationOfPrompt "a cat" "1:1" "" ⟨"A", none, none⟩ "t0").status = some 1 ∧
      (newGenerationOfButton "A" "U1" none ⟨"B", some 2, none⟩ "t1").status = some 2 :=
  ⟨((registered_status "a cat" "1:1" "" "A" "U1" "t0" none ⟨"A", none, none⟩).1
      (Or.inl rfl)).1,
    ((registered_status "a cat" "1:1" "" "A" "U1" "t1" none ⟨"B", some 2, none⟩).2 2
      (by decide) rfl).2⟩

/-! ## The backend routes -/

/-- C17: login fails with HTTP 400 whenever the required fields of the chosen mode are
missing: `authType` is neither `apikey` nor `token`, or it is `apikey` and `apiKey` is
missing or empty, or it is `token` and `clientId` or `clientSecret` is missing or empty.
In each case the answer reports failure, no token request is sent to the provider, and
`req.session.auth` is left as it was. -/
theorem login_validation (session : Option SessionAuth)
    (authType apiKey clientId clientSecret : Option String) (provider : TokenOutcome)
    (hmissing :
      (authType ≠ some "apikey" ∧ authType ≠ some "token") ∨
      (authType = some "apikey" ∧ (apiKey = none ∨ apiKey = some "")) ∨
      (authType = some "token" ∧
        ((clientId = none ∨ clientId = some "") ∨
          (clientSecret = none ∨ clientSecret = some "")))) :
    (loginRoute session authType apiKey clientId clientSecret provider).status = 400 ∧
      (loginRoute session authType apiKey clientId clientSecret provider).body.success =
        false ∧
      (loginRoute session authType apiKey clientId clientSecret provider).sent = none ∧
      (loginRoute session authType apiKey clientId clientSecret provider).session =
        session := by
  rcases hmissing with ⟨h1, h2⟩ | ⟨h1, h2⟩ | ⟨h1, h2⟩
  · have hbad : (authType != some "apikey" && authType != some "token") = true := by
      simp [h1, h2]
    simp [loginRoute, hbad]
  · have hfalsy : truthyStr apiKey = false := (truthyStr_eq_false_iff apiKey).mpr h2
    have ht : truthyStr authType = true := by rw [h1]; decide
    subst h1
    simp [loginRoute, hfalsy, ht]
  · have hfalsy : (!truthyStr clientId || !truthyStr clientSecret) = true := by
      rcases h2 with h | h
      · simp [(truthyStr_eq_false_iff clientId).mpr h]
      · simp [(truthyStr_eq_false_iff clientSecret).mpr h]
    have ht : truthyStr authType = true := by rw [h1]; decide
    subst h1
    have hne : (some "token" == some "apikey") = false := by decide
    simp [loginRoute, hfalsy, ht, hne]

/-- Witness of C17: a token login without a client secret, on a session that holds an API
key, answers 400, sends nothing and keeps the session. -/
theorem login_validation_witness :
    (some "token" = some "token" ∧
        (((some "id" : Option String) = none ∨ (some "id" : Option String) = some "") ∨
          ((none : Option String) = none ∨ (none : Option String) = some ""))) ∧
      (loginRoute (some sampleAuth) (some "token") none (some "id") none
        (.returned ⟨some 1000, some "tok", none⟩)).status = 400 ∧
      (loginRoute (some sampleAuth) (some "token") none (some "id") none
        (.returned ⟨some 1000, some "tok", none⟩)).session = some sampleAuth :=
  ⟨⟨rfl, Or.inr (Or.inl rfl)⟩,
    (login_validation (some sampleAuth) (some "token") none (some "id") none
      (.returned ⟨some 1000, some "tok", none⟩)
      (Or.inr (Or.inr ⟨rfl, Or.inr (Or.inl rfl)⟩))).1,
    (login_validation (some sampleAuth) (some "token") none (some "id") none
      (.returned ⟨some 1000, some "tok", none⟩)
      (Or.inr (Or.inr ⟨rfl, Or.inr (Or.inl rfl)⟩))).2.2.2⟩

theorem generateRoute_sent (auth : Option SessionAuth)
    (prompt scale source_image webhookUrl : Option String) (provider : ProviderOutcome)
    (request : GenerateRequest)
    (h : (generateRoute auth prompt scale source_image webhookUrl provider).sent =
      some request) :
    ∃ authHeaders, getAuthHeaders auth = .ok authHeaders ∧ truthyStr prompt = true ∧
      request =
        { headers := [authHeaders, ("Content-Type", some "application/json")]
          prompt := prompt.getD ""
          scale := (orStr scale (some "1:1")).getD ""
          webhookUrl := (orStr webhookUrl (some "")).getD ""
          source_image := if truthyStr source_image then source_image else none } := by
  unfold generateRoute at h
  cases hauth : getAuthHeaders auth with
  | error m => simp [hauth] at h
  | ok authHeaders =>
      by_cases hp : truthyStr prompt = true
      · refine ⟨authHeaders, rfl, hp, ?_⟩
        simp only [hauth, hp, Bool.not_true, Bool.false_eq_true, if_false] at h
        cases provider with
        | threw message response =>
            simp only [Option.some.injEq] at h
            exact h.symm
        | returned response =>
            by_cases hc : (response.code == some 1000) = true
            · simp only [hc, if_true, Option.some.injEq] at h
              exact h.symm
            · simp only [hc, Bool.false_eq_true, if_false, Option.some.injEq] at h
              exact h.symm
      · simp [hauth, hp] at h

theorem variantRoute_sent (auth : Option SessionAuth) (_id button webhookUrl : Option String)
    (provider : ProviderOutcome) (request : VariantRequest)
    (h : (variantRoute auth _id button webhookUrl provider).sent = some request) :
    ∃ authHeaders, getAuthHeaders auth = .ok authHeaders ∧ truthyStr _id = true ∧
      truthyStr button = true ∧
      request =
        { headers := [authHeaders, ("Content-Type", some "application/json")]
          _id := _id.getD ""
          button := button.getD ""
          webhookUrl := (orStr webhookUrl (some "")).getD "" } := by
  unfold variantRoute at h
  cases hauth : getAuthHeaders auth with
  | error m => simp [hauth] at h
  | ok authHeaders =>
      by_cases hp : (!truthyStr _id || !truthyStr button) = true
      · simp [hauth, hp] at h
      · have hboth : truthyStr _id = true ∧ truthyStr button = true := by simpa using hp
        refine ⟨authHeaders, rfl, hboth.1, hboth.2, ?_⟩
        simp only [hauth, hp, Bool.false_eq_true, if_false] at h
        cases provider with
        | threw message response =>
            simp only [Option.some.injEq] at h
            exact h.symm
        | returned response =>
            by_cases hc : (response.code == some 1000) = true
            · simp only [hc, if_true, Option.some.injEq] at h
              exact h.symm
            · simp only [hc, Bool.false_eq_true, if_false, Option.some.injEq] at h
              exact h.symm

theorem statusRoute_sent (auth : Option SessionAuth) (id : Option String)
    (provider : StatusProviderOutcome) (request : StatusRequest)
    (h : (statusRoute auth id provider).sent = some request) :
    ∃ authHeaders, getAuthHeaders auth = .ok authHeaders ∧ truthyStr id = true ∧
      request = { headers := [authHeaders], image_model_id := id.getD "" } := by
  unfold statusRoute at h
  cases hauth : getAuthHeaders auth with
  | error m => simp [hauth] at h
  | ok authHeaders =>
      by_cases hp : truthyStr id = true
      · refine ⟨authHeaders, rfl, hp, ?_⟩
        simp only [hauth, hp, Bool.not_true, Bool.false_eq_true, if_false] at h
        cases provider with
        | threw message response =>
            simp only [Option.some.injEq] at h
            exact h.symm
        | returned response =>
            by_cases hc : (response.code == some 1000) = true
            · simp only [hc, if_true, Option.some.injEq] at h
              exact h.symm
            · simp only [hc, Bool.false_eq_true, if_false, Option.some.injEq] at h
              exact h.symm
      · simp [hauth, hp] at h

theorem getAuthHeaders_apikey (auth : SessionAuth) (h : auth.type = "apikey") :
    getAuthHeaders (some auth) = .ok ("x-api-key", auth.apiKey) := by
  simp [getAuthHeaders, h]

theorem getAuthHeaders_token (auth : SessionAuth) (token : String) (h : auth.type = "token")
    (ht : auth.token = some token) :
    getAuthHeaders (some auth) = .ok ("Authorization", some ("Bearer " ++ token)) := by
  have hne : ("token" == "apikey") = false := by decide
  simp [getAuthHeaders, h, ht, hne]

theorem credential_of_headers (authHeaders : String × Option String)
    (h : isCredentialHeader authHeaders = true) :
    [authHeaders, ("Content-Type", some "application/json")].filter isCredentialHeader =
        [authHeaders] ∧
      [authHeaders].filter isCredentialHeader = [authHeaders] := by
  have hct : isCredentialHeader ("Content-Type", some "application/json") = false := by
    decide
  simp [List.filter, h, hct]

theorem sent_credentials (auth : Option SessionAuth) (authHeaders : String × Option String)
    (hauth : getAuthHeaders auth = .ok authHeaders)
    (hcred : isCredentialHeader authHeaders = true)
    (prompt scale source_image webhookUrl _id button id : Option String)
    (provider : ProviderOutcome) (statusProvider : StatusProviderOutcome) :
    (∀ r, (generateRoute auth prompt scale source_image webhookUrl provider).sent = some r →
        r.headers.filter isCredentialHeader = [authHeaders]) ∧
      (∀ r, (variantRoute auth _id button webhookUrl provider).sent = some r →
        r.headers.filter isCredentialHeader = [authHeaders]) ∧
      (∀ r, (statusRoute auth id statusProvider).sent = some r →
        r.headers.filter isCredentialHeader = [authHeaders]) := by
  obtain ⟨c1, c2⟩ := credential_of_headers authHeaders hcred
  refine ⟨?_, ?_, ?_⟩
  · intro r hr
    obtain ⟨h', hok, _, rfl⟩ := generateRoute_sent _ _ _ _ _ _ _ hr
    rw [hauth] at hok
    cases hok
    exact c1
  · intro r hr
    obtain ⟨h', hok, _, _, rfl⟩ := variantRoute_sent _ _ _ _ _ _ hr
    rw [hauth] at hok
    cases hok
    exact c1
  · intro r hr
    obtain ⟨h', hok, _, rfl⟩ := statusRoute_sent _ _ _ _ hr
    rw [hauth] at hok
    cases hok
    exact c2

theorem loginRoute_success (session : Option SessionAuth)
    (authType apiKey clientId clientSecret : Option String) (provider : TokenOutcome)
    (h : (loginRoute session authType apiKey clientId clientSecret provider).body.success =
      true) :
    ∃ a, (loginRoute session authType apiKey clientId clientSecret provider).session =
        some a ∧
      ((a.type = "apikey" ∧ a.apiKey = apiKey ∧ truthyStr apiKey = true) ∨
        (a.type = "token" ∧ truthyStr a.token = true)) := by
  unfold loginRoute at h ⊢
  by_cases h1 : (!truthyStr authType || (authType != some "apikey" &&
      authType != some "token")) = true
  · simp [h1] at h
  · simp only [h1, Bool.false_eq_true, if_false] at h ⊢
    by_cases h2 : (authType == some "apikey") = true
    · simp only [h2, if_true] at h ⊢
      by_cases h3 : truthyStr apiKey = true
      · simp [h3]
      · simp [h3] at h
    · simp only [h2, Bool.false_eq_true, if_false] at h ⊢
      by_cases h3 : (!truthyStr clientId || !truthyStr clientSecret) = true
      · simp [h3] at h
      · simp only [h3, Bool.false_eq_true, if_false] at h ⊢
        cases provider with
        | threw message response => simp at h
        | returned response =>
            by_cases h4 : (response.code == some 1000 && truthyStr response.token) = true
            · simp only [h4, if_true]
              simp only [Bool.and_eq_true] at h4
              exact ⟨_, rfl, Or.inr ⟨rfl, h4.2⟩⟩
            · simp [h4] at h

theorem getAuthHeaders_of_mode (auth : SessionAuth)
    (hmode : auth.type = "apikey" ∨ auth.type = "token") :
    ∃ authHeaders, getAuthHeaders (some auth) = .ok authHeaders := by
  rcases hmode with h | h
  · exact ⟨_, getAuthHeaders_apikey auth h⟩
  · have hne : ("token" == "apikey") = false := by decide
    exact ⟨("Authorization", some ("Bearer " ++ auth.token.getD "undefined")), by
      simp [getAuthHeaders, h, hne]⟩

theorem truthyStr_some (s : String) (h : s ≠ "") : truthyStr (some s) = true := by
  simp [truthyStr, h]

theorem generateRoute_forwards (auth : Option SessionAuth)
    (authHeaders : String × Option String) (hauth : getAuthHeaders auth = .ok authHeaders)
    (prompt scale source_image webhookUrl : Option String) (provider : ProviderOutcome)
    (hp : truthyStr prompt = true) :
    (generateRoute auth prompt scale source_image webhookUrl provider).sent =
      some
        { headers := [authHeaders, ("Content-Type", some "application/json")]
          prompt := prompt.getD ""
          scale := (orStr scale (some "1:1")).getD ""
          webhookUrl := (orStr webhookUrl (some "")).getD ""
          source_image := if truthyStr source_image then source_image else none } := by
  unfold generateRoute
  simp only [hauth, hp, Bool.not_true, Bool.false_eq_true, if_false]
  cases provider with
  | threw message response => rfl
  | returned response =>
      by_cases hc : (response.code == some 1000) = true
      · simp only [hc, if_true]
      · simp only [hc, Bool.false_eq_true, if_false]

theorem variantRoute_forwards (auth : Option SessionAuth)
    (authHeaders : String × Option String) (hauth : getAuthHeaders auth = .ok authHeaders)
    (_id button webhookUrl : Option String) (provider : ProviderOutcome)
    (hi : truthyStr _id = true) (hb : truthyStr button = true) :
    (variantRoute auth _id button webhookUrl provider).sent =
      some
        { headers := [authHeaders, ("Content-Type", some "application/json")]
          _id := _id.getD ""
          button := button.getD ""
          webhookUrl := (orStr webhookUrl (some "")).getD "" } := by
  unfold variantRoute
  simp only [hauth, hi, hb, Bool.not_true, Bool.or_self, Bool.false_eq_true, if_false]
  cases provider with
  | threw message response => rfl
  | returned response =>
      by_cases hc : (response.code == some 1000) = true
      · simp only [hc, if_true]
      · simp only [hc, Bool.false_eq_true, if_false]

theorem statusRoute_forwards (auth : Option SessionAuth)
    (authHeaders : String × Option String) (hauth : getAuthHeaders auth = .ok authHeaders)
    (id : Option String) (provider : StatusProviderOutcome) (hi : truthyStr id = true) :
    (statusRoute auth id provider).sent =
      some { headers := [authHeaders], image_model_id := id.getD "" } := by
  unfold statusRoute
  simp only [hauth, hi, Bool.not_true, Bool.false_eq_true, if_false]
  cases provider with
  | threw message response => rfl
  | returned response =>
      by_cases hc : (response.code == some 1000) = true
      · simp only [hc, if_true]
      · simp only [hc, Bool.false_eq_true, if_false]

theorem sends_credentials (auth : Option SessionAuth) (authHeaders : String × Option String)
    (hauth : getAuthHeaders auth = .ok authHeaders)
    (hcred : isCredentialHeader authHeaders = true)
    (prompt scale source_image webhookUrl _id button id : Option String)
    (provider : ProviderOutcome) (statusProvider : StatusProviderOutcome) :
    (truthyStr prompt = true →
        ∃ r, (generateRoute auth prompt scale source_image webhookUrl provider).sent =
            some r ∧
          r.headers = [authHeaders, ("Content-Type", some "application/json")] ∧
          r.headers.filter isCredentialHeader = [authHeaders]) ∧
      (truthyStr _id = true → truthyStr button = true →
        ∃ r, (variantRoute auth _id button webhookUrl provider).sent = some r ∧
          r.headers = [authHeaders, ("Content-Type", some "application/json")] ∧
          r.headers.filter isCredentialHeader = [authHeaders]) ∧
      (truthyStr id = true →
        ∃ r, (statusRoute auth id statusProvider).sent = some r ∧
          r.headers = [authHeaders] ∧
          r.headers.filter isCredentialHeader = [authHeaders]) := by
  obtain ⟨c1, c2⟩ := credential_of_headers authHeaders hcred
  refine ⟨?_, ?_, ?_⟩
  · intro hp
    exact ⟨_, generateRoute_forwards auth authHeaders hauth prompt scale source_image
      webhookUrl provider hp, rfl, c1⟩
  · intro hi hb
    exact ⟨_, variantRoute_forwards auth authHeaders hauth _id button webhookUrl provider
      hi hb, rfl, c1⟩
  · intro hi
    exact ⟨_, statusRoute_forwards auth authHeaders hauth id statusProvider hi, rfl, c2⟩

/-- C18: the three generation operations require an auth context. With no auth context in
the session each of `/generate`, `/variant` and `/status/:id` fails (status 500, `success`
false) and sends no request to the provider. With the auth context of API-key mode each
of the three, given its required arguments, sends its request to the provider whatever
the provider then answers, and every request they send carries exactly one credential
header, `x-api-key` with the stored key; with that of token mode they send likewise, with
exactly one credential header, `Authorization` with `Bearer` and the stored token. A
successful login stores an auth context of one of these two modes. -/
theorem routes_require_auth (prompt scale source_image webhookUrl _id button id :
    Option String) (provider : ProviderOutcome) (statusProvider : StatusProviderOutcome) :
    ((generateRoute none prompt scale source_image webhookUrl provider).status = 500 ∧
        (generateRoute none prompt scale source_image webhookUrl provider).body.success =
          false ∧
        (generateRoute none prompt scale source_image webhookUrl provider).sent = none) ∧
      ((variantRoute none _id button webhookUrl provider).status = 500 ∧
        (variantRoute none _id button webhookUrl provider).body.success = false ∧
        (variantRoute none _id button webhookUrl provider).sent = none) ∧
      ((statusRoute none id statusProvider).status = 500 ∧
        (statusRoute none id statusProvider).body.success = false ∧
        (statusRoute none id statusProvider).sent = none) ∧
      (∀ auth : SessionAuth, auth.type = "apikey" →
        (∀ r, (generateRoute (some auth) prompt scale source_image webhookUrl
            provider).sent = some r →
          r.headers.filter isCredentialHeader = [("x-api-key", auth.apiKey)]) ∧
        (∀ r, (variantRoute (some auth) _id button webhookUrl provider).sent = some r →
          r.headers.filter isCredentialHeader = [("x-api-key", auth.apiKey)]) ∧
        (∀ r, (statusRoute (some auth) id statusProvider).sent = some r →
          r.headers.filter isCredentialHeader = [("x-api-key", auth.apiKey)])) ∧
      (∀ (auth : SessionAuth) (token : String), auth.type = "token" →
        auth.token = some token →
        (∀ r, (generateRoute (some auth) prompt scale source_image webhookUrl
            provider).sent = some r →
          r.headers.filter isCredentialHeader =
            [("Authorization", some ("Bearer " ++ token))]) ∧
        (∀ r, (variantRoute (some auth) _id button webhookUrl provider).sent = some r →
          r.headers.filter isCredentialHeader =
            [("Authorization", some ("Bearer " ++ token))]) ∧
        (∀ r, (statusRoute (some auth) id statusProvider).sent = some r →
          r.headers.filter isCredentialHeader =
            [("Authorization", some ("Bearer " ++ token))])) ∧
      (∀ session authType apiKey clientId clientSecret tokenProvider,
        (loginRoute session authType apiKey clientId clientSecret
          tokenProvider).body.success = true →
        ∃ a, (loginRoute session authType apiKey clientId clientSecret
            tokenProvider).session = some a ∧
          ((a.type = "apikey" ∧ a.apiKey = apiKey ∧ truthyStr apiKey = true) ∨
            (a.type = "token" ∧ truthyStr a.token = true))) ∧
      (∀ auth : SessionAuth, auth.type = "apikey" →
        (truthyStr prompt = true →
          ∃ r, (generateRoute (some auth) prompt scale source_image webhookUrl
              provider).sent = some r ∧
            r.headers =
              [("x-api-key", auth.apiKey), ("Content-Type", some "application/json")] ∧
            r.headers.filter isCredentialHeader = [("x-api-key", auth.apiKey)]) ∧
        (truthyStr _id = true → truthyStr button = true →
          ∃ r, (variantRoute (some auth) _id button webhookUrl provider).sent = some r ∧
            r.headers =
              [("x-api-key", auth.apiKey), ("Content-Type", some "application/json")] ∧
            r.headers.filter isCredentialHeader = [("x-api-key", auth.apiKey)]) ∧
        (truthyStr id = true →
          ∃ r, (statusRoute (some auth) id statusProvider).sent = some r ∧
            r.headers = [("x-api-key", auth.apiKey)] ∧
            r.headers.filter isCredentialHeader = [("x-api-key", auth.apiKey)])) ∧
      (∀ (auth : SessionAuth) (token : String), auth.type = "token" →
        auth.token = some token →
        (truthyStr prompt = true →
          ∃ r, (generateRoute (some auth) prompt scale source_image webhookUrl
              provider).sent = some r ∧
            r.headers =
              [("Authorization", some ("Bearer " ++ token)),
                ("Content-Type", some "application/json")] ∧
            r.headers.filter isCredentialHeader =
              [("Authorization", some ("Bearer " ++ token))]) ∧
        (truthyStr _id = true → truthyStr button = true →
          ∃ r, (variantRoute (some auth) _id button webhookUrl provider).sent = some r ∧
            r.headers =
              [("Authorization", some ("Bearer " ++ token)),
                ("Content-Type", some "application/json")] ∧
            r.headers.filter isCredentialHeader =
              [("Authorization", some ("Bearer " ++ token))]) ∧
        (truthyStr id = true →
          ∃ r, (statusRoute (some auth) id statusProvider).sent = some r ∧
            r.headers = [("Authorization", some ("Bearer " ++ token))] ∧
            r.headers.filter isCredentialHeader =
              [("Authorization", some ("Bearer " ++ token))])) := by
  refine ⟨⟨rfl, rfl, rfl⟩, ⟨rfl, rfl, rfl⟩, ⟨rfl, rfl, rfl⟩, ?_, ?_, ?_, ?_, ?_⟩
  · intro auth htype
    exact sent_credentials (some auth) _ (getAuthHeaders_apikey auth htype)
      (by simp [isCredentialHeader])
      prompt scale source_image webhookUrl _id button id provider statusProvider
  · intro auth token htype htoken
    exact sent_credentials (some auth) _ (getAuthHeaders_token auth token htype htoken)
      (by simp [isCredentialHeader]) prompt scale source_image webhookUrl _id button id
      provider statusProvider
  · intro session authType apiKey clientId clientSecret tokenProvider h
    exact loginRoute_success session authType apiKey clientId clientSecret tokenProvider h
  · intro auth htype
    exact sends_credentials (some auth) _ (getAuthHeaders_apikey auth htype)
      (by simp [isCredentialHeader])
      prompt scale source_image webhookUrl _id button id provider statusProvider
  · intro auth token htype htoken
    exact sends_credentials (some auth) _ (getAuthHeaders_token auth token htype htoken)
      (by simp [isCredentialHeader]) prompt scale source_image webhookUrl _id button id
      provider statusProvider

/-- Witness of C18: in API-key mode `/generate`, `/variant` and `/status/:id` each send a
request whose one credential header is `x-api-key: key`, and in token mode each sends a
request whose one credential header is `Authorization: Bearer tok`; with no auth context
`/generate` sends nothing. -/
theorem routes_require_auth_witness :
    (sampleAuth.type = "apikey" ∧ sampleTokenAuth.type = "token" ∧
        sampleTokenAuth.token = some "tok" ∧ truthyStr (some "a cat") = true ∧
        truthyStr (some "A") = true ∧ truthyStr (some "U1") = true) ∧
      (generateRoute none (some "a cat") none none none (providerCreated "A")).sent = none ∧
      ((∃ r, (generateRoute (some sampleAuth) (some "a cat") none none none
            (providerCreated "A")).sent = some r ∧
          r.headers =
            [("x-api-key", sampleAuth.apiKey), ("Content-Type", some "application/json")] ∧
          r.headers.filter isCredentialHeader = [("x-api-key", sampleAuth.apiKey)]) ∧
        (∃ r, (variantRoute (some sampleAuth) (some "A") (some "U1") none
            (providerCreated "A")).sent = some r ∧
          r.headers =
            [("x-api-key", sampleAuth.apiKey), ("Content-Type", some "application/json")] ∧
          r.headers.filter isCredentialHeader = [("x-api-key", sampleAuth.apiKey)]) ∧
        (∃ r, (statusRoute (some sampleAuth) (some "A")
            (providerStatus snapshotCompleted)).sent = some r ∧
          r.headers = [("x-api-key", sampleAuth.apiKey)] ∧
          r.headers.filter isCredentialHeader = [("x-api-key", sampleAuth.apiKey)])) ∧
      ((∃ r, (generateRoute (some sampleTokenAuth) (some "a cat") none none none
            (providerCreated "A")).sent = some r ∧
          r.headers =
            [("Authorization", some ("Bearer " ++ "tok")),
              ("Content-Type", some "application/json")] ∧
          r.headers.filter isCredentialHeader =
            [("Authorization", some ("Bearer " ++ "tok"))]) ∧
        (∃ r, (variantRoute (some sampleTokenAuth) (some "A") (some "U1") none
            (providerCreated "A")).sent = some r ∧
          r.headers =
            [("Authorization", some ("Bearer " ++ "tok")),
              ("Content-Type", some "application/json")] ∧
          r.headers.filter isCredentialHeader =
            [("Authorization", some ("Bearer " ++ "tok"))]) ∧
        (∃ r, (statusRoute (some sampleTokenAuth) (some "A")
            (providerStatus snapshotCompleted)).sent = some r ∧
          r.headers = [("Authorization", some ("Bearer " ++ "tok"))] ∧
          r.headers.filter isCredentialHeader =
            [("Authorization", some ("Bearer " ++ "tok"))])) ∧
      (generateRoute (some sampleAuth) (some "a cat") none none none
        (providerCreated "A")).sent =
        some ⟨[("x-api-key", some "key"), ("Content-Type", some "application/json")],
          "a cat", "1:1", "", none⟩ :=
  ⟨⟨rfl, rfl, rfl, by decide, by decide, by decide⟩,
    (routes_require_auth (some "a cat") none none none (some "A") (some "U1") (some "A")
      (providerCreated "A") (providerStatus snapshotCompleted)).1.2.2,
    ⟨((routes_require_auth (some "a cat") none none none (some "A") (some "U1") (some "A")
        (providerCreated "A") (providerStatus snapshotCompleted)).2.2.2.2.2.2.1
        sampleAuth rfl).1 (by decide),
      ((routes_require_auth (some "a cat") none none none (some "A") (some "U1") (some "A")
        (providerCreated "A") (providerStatus snapshotCompleted)).2.2.2.2.2.2.1
        sampleAuth rfl).2.1 (by decide) (by decide),
      ((routes_require_auth (some "a cat") none none none (some "A") (some "U1") (some "A")
        (providerCreated "A") (providerStatus snapshotCompleted)).2.2.2.2.2.2.1
        sampleAuth rfl).2.2 (by decide)⟩,
    ⟨((routes_require_auth (some "a cat") none none none (some "A") (some "U1") (some "A")
        (providerCreated "A") (providerStatus snapshotCompleted)).2.2.2.2.2.2.2
        sampleTokenAuth "tok" rfl rfl).1 (by decide),
      ((routes_require_auth (some "a cat") none none none (some "A") (some "U1") (some "A")
        (providerCreated "A") (providerStatus snapshotCompleted)).2.2.2.2.2.2.2
        sampleTokenAuth "tok" rfl rfl).2.1 (by decide) (by decide),
      ((routes_require_auth (some "a cat") none none none (some "A") (some "U1") (some "A")
        (providerCreated "A") (providerStatus snapshotCompleted)).2.2.2.2.2.2.2
        sampleTokenAuth "tok" rfl rfl).2.2 (by decide)⟩,
    by decide⟩

/-- C19: for an authenticated session, `/generate` answers 400 with `success` false and
sends no request to the provider when the prompt is missing or empty; otherwise it sends
a request that carries the given prompt, the given aspect ratio or `1:1` when none is
supplied, and a `source_image` field only when one is supplied. -/
theorem generate_validation (auth : SessionAuth)
    (prompt scale source_image webhookUrl : Option String) (provider : ProviderOutcome)
    (hmode : auth.type = "apikey" ∨ auth.type = "token") :
    ((prompt = none ∨ prompt = some "") →
        (generateRoute (some auth) prompt scale source_image webhookUrl provider).status =
          400 ∧
        (generateRoute (some auth) prompt scale source_image webhookUrl
          provider).body.success = false ∧
        (generateRoute (some auth) prompt scale source_image webhookUrl provider).sent =
          none) ∧
      (∀ p : String, p ≠ "" → prompt = some p →
        ∃ r, (generateRoute (some auth) prompt scale source_image webhookUrl
            provider).sent = some r ∧
          r.prompt = p ∧
          ((scale = none ∨ scale = some "") → r.scale = "1:1") ∧
          (∀ s : String, s ≠ "" → scale = some s → r.scale = s) ∧
          ((source_image = none ∨ source_image = some "") → r.source_image = none) ∧
          (∀ s : String, s ≠ "" → source_image = some s → r.source_image = some s)) := by
  obtain ⟨authHeaders, hauth⟩ := getAuthHeaders_of_mode auth hmode
  constructor
  · intro hmissing
    have hfalsy := (truthyStr_eq_false_iff prompt).mpr hmissing
    simp [generateRoute, hauth, hfalsy]
  · intro p hp hprompt
    have htruthy : truthyStr prompt = true := by rw [hprompt]; exact truthyStr_some p hp
    refine ⟨_, generateRoute_forwards (some auth) authHeaders hauth prompt scale source_image
      webhookUrl provider htruthy, ?_, ?_, ?_, ?_, ?_⟩
    · simp [hprompt]
    · intro h
      simp [orStr_of_falsy _ _ ((truthyStr_eq_false_iff scale).mpr h)]
    · intro s hs h
      simp [h, orStr_of_truthy _ _ (truthyStr_some s hs)]
    · intro h
      simp [(truthyStr_eq_false_iff source_image).mpr h]
    · intro s hs h
      simp [h, truthyStr_some s hs]

/-- Witness of C19: with the sample API key, a request without a prompt is answered 400
and nothing is sent; a request with a prompt and nothing else is forwarded with the
aspect ratio `1:1` and without `source_image`. -/
theorem generate_validation_witness :
    (sampleAuth.type = "apikey" ∨ sampleAuth.type = "token") ∧
      (generateRoute (some sampleAuth) none none none none (providerCreated "A")).status =
        400 ∧
      (generateRoute (some sampleAuth) (some "a cat") none none none
        (providerCreated "A")).sent =
        some ⟨[("x-api-key", some "key"), ("Content-Type", some "application/json")],
          "a cat", "1:1", "", none⟩ :=
  ⟨Or.inl rfl,
    ((generate_validation sampleAuth none none none none (providerCreated "A")
      (Or.inl rfl)).1 (Or.inl rfl)).1,
    by
      obtain ⟨r, hr, _⟩ := (generate_validation sampleAuth (some "a cat") none none none
        (providerCreated "A") (Or.inl rfl)).2 "a cat" (by decide) rfl
      rw [hr]
      exact hr.symm.trans (by decide)⟩

/-- Counterexample to C20 as stated: with the sample API key, the job id `A` and the
action code `X9`, which is none of `U1..U4`, `V1..V4`, the route `/variant` sends the
request to the provider with the code as given and answers 200 with `success` true. -/
theorem variant_code_not_checked :
    "X9" ∉ ["U1", "U2", "U3", "U4", "V1", "V2", "V3", "V4"] ∧
      (variantRoute (some sampleAuth) (some "A") (some "X9") none
        (providerCreated "B")).sent =
        some ⟨[("x-api-key", some "key"), ("Content-Type", some "application/json")],
          "A", "X9", ""⟩ ∧
      (variantRoute (some sampleAuth) (some "A") (some "X9") none
        (providerCreated "B")).status = 200 ∧
      (variantRoute (some sampleAuth) (some "A") (some "X9") none
        (providerCreated "B")).body.success = true := by
  decide

/-- C20, amended: for an authenticated session, `/variant` forwards a request to the
provider exactly when both the job id and the action code are present and non-empty; a
request with a missing argument is answered 400 with `success` false before any provider
call; the action code is not matched against a pattern, a forwarded request carries the
job id and the code as they were given. -/
theorem variant_validation (auth : SessionAuth) (_id button webhookUrl : Option String)
    (provider : ProviderOutcome)
    (hmode : auth.type = "apikey" ∨ auth.type = "token") :
    ((variantRoute (some auth) _id button webhookUrl provider).sent ≠ none ↔
        (truthyStr _id = true ∧ truthyStr button = true)) ∧
      (((_id = none ∨ _id = some "") ∨ (button = none ∨ button = some "")) →
        (variantRoute (some auth) _id button webhookUrl provider).status = 400 ∧
        (variantRoute (some auth) _id button webhookUrl provider).body.success = false ∧
        (variantRoute (some auth) _id button webhookUrl provider).sent = none) ∧
      (∀ i b : String, i ≠ "" → b ≠ "" → _id = some i → button = some b →
        ∃ r, (variantRoute (some auth) _id button webhookUrl provider).sent = some r ∧
          r._id = i ∧ r.button = b) := by
  obtain ⟨authHeaders, hauth⟩ := getAuthHeaders_of_mode auth hmode
  refine ⟨⟨?_, ?_⟩, ?_, ?_⟩
  · intro hsent
    cases hr : (variantRoute (some auth) _id button webhookUrl provider).sent with
    | none => exact absurd hr hsent
    | some r =>
        obtain ⟨_, _, hi, hb, _⟩ := variantRoute_sent _ _ _ _ _ _ hr
        exact ⟨hi, hb⟩
  · rintro ⟨hi, hb⟩
    rw [variantRoute_forwards (some auth) authHeaders hauth _id button webhookUrl provider
      hi hb]
    simp
  · intro hmissing
    have hfalsy : (!truthyStr _id || !truthyStr button) = true := by
      rcases hmissing with h | h
      · simp [(truthyStr_eq_false_iff _id).mpr h]
      · simp [(truthyStr_eq_false_iff button).mpr h]
    simp [variantRoute, hauth, hfalsy]
  · intro i b hi hb hid hbutton
    have h1 : truthyStr _id = true := by rw [hid]; exact truthyStr_some i hi
    have h2 : truthyStr button = true := by rw [hbutton]; exact truthyStr_some b hb
    refine ⟨_, variantRoute_forwards (some auth) authHeaders hauth _id button webhookUrl
      provider h1 h2, ?_, ?_⟩
    · simp [hid]
    · simp [hbutton]

/-- Witness of C20, amended: with the sample API key, a request without an action code is
answered 400 and nothing is sent, and the request for `A` and `U1` is forwarded. -/
theorem variant_validation_witness :
    (sampleAuth.type = "apikey" ∨ sampleAuth.type = "token") ∧
      (variantRoute (some sampleAuth) (some "A") none none (providerCreated "B")).status =
        400 ∧
      (variantRoute (some sampleAuth) (some "A") none none (providerCreated "B")).sent =
        none ∧
      (variantRoute (some sampleAuth) (some "A") (some "U1") none
        (providerCreated "B")).sent ≠ none :=
  ⟨Or.inl rfl,
    ((variant_validation sampleAuth (some "A") none none (providerCreated "B")
      (Or.inl rfl)).2.1 (Or.inr (Or.inl rfl))).1,
    ((variant_validation sampleAuth (some "A") none none (providerCreated "B")
      (Or.inl rfl)).2.1 (Or.inr (Or.inl rfl))).2.2,
    (variant_validation sampleAuth (some "A") (some "U1") none (providerCreated "B")
      (Or.inl rfl)).1.mpr ⟨by decide, by decide⟩⟩

/-! ## Termination and visibility -/

theorem shouldStop_completed_content (data : StatusData) (gen : Generation)
    (hstop : shouldStop data gen = true) (h3 : data.image_status = some 3) :
    (isUpscaleOf gen = true → truthyStr (mergeGeneration data gen).image = true) ∧
      (isUpscaleOf gen = false → (mergeGeneration data gen).upscaled_urls ≠ []) := by
  constructor
  · intro hk
    have himg : hasImageOf data = true := by
      rcases (shouldStop_upscale_iff data gen hk).mp hstop with h4 | ⟨_, _, hi⟩
      · rw [h3] at h4
        exact absurd h4 (by decide)
      · exact (hasImageOf_iff data).mpr hi
    rw [mergeGeneration_image_eq, orStr_of_truthy _ _ himg]
    exact himg
  · intro hk
    rcases (shouldStop_other_iff data gen hk).mp hstop with h4 | ⟨_, u, us, hu⟩
    · rw [h3] at h4
      exact absurd h4 (by decide)
    · rw [mergeGeneration_upscaled_urls_eq]
      simp [hk, upscaledUrlsOf, hu]

/-- C22: termination and visibility agree. For a job of any kind and any snapshot, when
the merge decides to stop polling the merged record is not hidden by the card: with
status 3 an Upscale record stores an image and an Initial or Variant record stores a
non-empty derived image list, and with any other status the card is shown anyway. -/
theorem stop_implies_visible (data : StatusData) (gen : Generation)
    (hstop : shouldStop data gen = true) :
    isHidden (mergeGeneration data gen) = false ∧
      (∃ card, GenerationCard (mergeGeneration data gen) = some card) ∧
      (data.image_status = some 3 →
        (isUpscaleOf gen = true → truthyStr (mergeGeneration data gen).image = true) ∧
        (isUpscaleOf gen = false → (mergeGeneration data gen).upscaled_urls ≠ [])) := by
  have hvisible : isHidden (mergeGeneration data gen) = false := by
    rw [← Bool.not_eq_true, isHidden_iff, mergeGeneration_status_eq,
      mergeGeneration_isUpscaleOf]
    rintro ⟨h3, hfail⟩
    obtain ⟨c1, c2⟩ := shouldStop_completed_content data gen hstop h3
    rcases hfail with ⟨hk, hf⟩ | ⟨hk, hf⟩
    · rw [c1 hk] at hf
      exact absurd hf (by decide)
    · exact c2 hk hf
  refine ⟨hvisible, ?_, shouldStop_completed_content data gen hstop⟩
  cases hcard : GenerationCard (mergeGeneration data gen) with
  | some card => exact ⟨card, rfl⟩
  | none =>
      rw [generationCard_eq_none_iff, hvisible] at hcard
      exact absurd hcard (by decide)

/-- Witness of C22: the Completed snapshot with an image stops the polling of the sample
Upscale job, and the merged record is shown with its image stored. -/
theorem stop_implies_visible_witness :
    shouldStop snapshotUpscaled sampleUpscale = true ∧
      isHidden (mergeGeneration snapshotUpscaled sampleUpscale) = false ∧
      truthyStr (mergeGeneration snapshotUpscaled sampleUpscale).image = true :=
  ⟨by decide, (stop_implies_visible snapshotUpscaled sampleUpscale (by decide)).1,
    ((stop_implies_visible snapshotUpscaled sampleUpscale (by decide)).2.2 rfl).1
      (by decide)⟩

/-! ## Provider failures -/

theorem generateRoute_returned (auth : Option SessionAuth)
    (authHeaders : String × Option String) (hauth : getAuthHeaders auth = .ok authHeaders)
    (prompt scale source_image webhookUrl : Option String) (response : ProviderResponse)
    (hp : truthyStr prompt = true) :
    (response.code = some 1000 →
        (generateRoute auth prompt scale source_image webhookUrl (.returned response)).status =
          200 ∧
        (generateRoute auth prompt scale source_image webhookUrl (.returned response)).body =
          { success := true, data := response.data, error := none, message := none,
            code := none }) ∧
      (response.code ≠ some 1000 →
        (generateRoute auth prompt scale source_image webhookUrl (.returned response)).status =
          400 ∧
        (generateRoute auth prompt scale source_image webhookUrl (.returned response)).body =
          { success := false, data := response.data,
            error := orStr response.msg (some "Failed to generate image"),
            message := none, code := response.code }) := by
  unfold generateRoute
  simp only [hauth, hp, Bool.not_true, Bool.false_eq_true, if_false]
  constructor
  · intro hc
    simp [hc]
  · intro hc
    simp [hc]

theorem variantRoute_returned (auth : Option SessionAuth)
    (authHeaders : String × Option String) (hauth : getAuthHeaders auth = .ok authHeaders)
    (_id button webhookUrl : Option String) (response : ProviderResponse)
    (hi : truthyStr _id = true) (hb : truthyStr button = true) :
    (response.code = some 1000 →
        (variantRoute auth _id button webhookUrl (.returned response)).status = 200 ∧
        (variantRoute auth _id button webhookUrl (.returned response)).body =
          { success := true, data := response.data, error := none, message := none,
            code := none }) ∧
      (response.code ≠ some 1000 →
        (variantRoute auth _id button webhookUrl (.returned response)).status = 400 ∧
        (variantRoute auth _id button webhookUrl (.returned response)).body =
          { success := false, data := response.data,
            error := orStr response.msg (some "Failed to create variant"),
            message := none, code := response.code }) := by
  unfold variantRoute
  simp only [hauth, hi, hb, Bool.not_true, Bool.or_self, Bool.false_eq_true, if_false]
  constructor
  · intro hc
    simp [hc]
  · intro hc
    simp [hc]

theorem statusRoute_returned (auth : Option SessionAuth)
    (authHeaders : String × Option String) (hauth : getAuthHeaders auth = .ok authHeaders)
    (id : Option String) (response : StatusProviderResponse) (hi : truthyStr id = true) :
    (response.code = some 1000 →
        (statusRoute auth id (.returned response)).status = 200 ∧
        (statusRoute auth id (.returned response)).body =
          { success := true, data := response.data, error := none, message := none,
            code := none }) ∧
      (response.code ≠ some 1000 →
        (statusRoute auth id (.returned response)).status = 400 ∧
        (statusRoute auth id (.returned response)).body =
          { success := false, data := response.data,
            error := orStr response.msg (some "Failed to get status"),
            message := none, code := response.code }) := by
  unfold statusRoute
  simp only [hauth, hi, Bool.not_true, Bool.false_eq_true, if_false]
  constructor
  · intro hc
    simp [hc]
  · intro hc
    simp [hc]

theorem generateOutcome_failed (auth : SessionAuth)
    (hmode : auth.type = "apikey" ∨ auth.type = "token")
    (prompt scale sourceImageUrl : String) (hprompt : prompt ≠ "")
    (response : ProviderResponse) (hcode : response.code ≠ some 1000) :
    generateOutcome (some auth) prompt scale sourceImageUrl (.returned response) =
      .rejected ("Request failed with status code " ++ toString 400)
        (some { success := false, data := response.data,
                error := orStr response.msg (some "Failed to generate image"),
                message := none, code := response.code }) := by
  obtain ⟨authHeaders, hauth⟩ := getAuthHeaders_of_mode auth hmode
  obtain ⟨hs, hb⟩ := (generateRoute_returned (some auth) authHeaders hauth (some prompt)
    (some scale) (if sourceImageUrl != "" then some sourceImageUrl else none) none response
    (truthyStr_some prompt hprompt)).2 hcode
  unfold generateOutcome
  simp only [hs, hb]
  simp [axiosOutcome]

theorem getStatus_failed (auth : SessionAuth)
    (hmode : auth.type = "apikey" ∨ auth.type = "token") (imageId : String)
    (hid : imageId ≠ "") (response : StatusProviderResponse)
    (hcode : response.code ≠ some 1000) :
    getStatus (some auth) imageId (.returned response) = none := by
  obtain ⟨authHeaders, hauth⟩ := getAuthHeaders_of_mode auth hmode
  obtain ⟨hs, _⟩ := (statusRoute_returned (some auth) authHeaders hauth (some imageId)
    response (truthyStr_some imageId hid)).2 hcode
  unfold getStatus
  simp [hs]

theorem reportedGenerateError_rejected (message : String) (body : CreateResponse) :
    (body.code = some 1101 →
        reportedGenerateError (.rejected message (some body)) =
          "Authentication expired. Please login again.") ∧
      (body.code = some 1108 →
        reportedGenerateError (.rejected message (some body)) =
          "Image generation error. Please try again later.") ∧
      (body.code = some 1200 →
        reportedGenerateError (.rejected message (some body)) =
          "Account has been banned.") ∧
      (body.code ≠ some 1101 → body.code ≠ some 1108 → body.code ≠ some 1200 →
        ∀ m : String, m ≠ "" → body.error = some m →
          reportedGenerateError (.rejected message (some body)) = m) := by
  refine ⟨?_, ?_, ?_, ?_⟩
  · intro h
    simp [reportedGenerateError, h]
  · intro h
    simp [reportedGenerateError, h]
  · intro h
    simp [reportedGenerateError, h]
  · intro h1 h2 h3 m hm he
    have ht : truthyStr (some m) = true := truthyStr_some m hm
    simp [reportedGenerateError, h1, h2, h3, he, orStr_of_truthy _ _ ht]

theorem generateRoute_threw (auth : Option SessionAuth)
    (authHeaders : String × Option String) (hauth : getAuthHeaders auth = .ok authHeaders)
    (prompt scale source_image webhookUrl : Option String) (message : String)
    (thrown : Option ProviderResponse) (hp : truthyStr prompt = true) :
    (generateRoute auth prompt scale source_image webhookUrl (.threw message thrown)).status =
        500 ∧
      (generateRoute auth prompt scale source_image webhookUrl (.threw message thrown)).body =
        { success := false, data := none, error := some "Failed to generate image",
          message := orStr (thrown.bind (fun r => r.msg)) (some message),
          code := thrown.bind (fun r => r.code) } := by
  unfold generateRoute
  simp [hauth, hp]

theorem variantRoute_threw (auth : Option SessionAuth)
    (authHeaders : String × Option String) (hauth : getAuthHeaders auth = .ok authHeaders)
    (_id button webhookUrl : Option String) (message : String)
    (thrown : Option ProviderResponse) (hi : truthyStr _id = true)
    (hb : truthyStr button = true) :
    (variantRoute auth _id button webhookUrl (.threw message thrown)).status = 500 ∧
      (variantRoute auth _id button webhookUrl (.threw message thrown)).body =
        { success := false, data := none, error := some "Failed to create variant",
          message := orStr (thrown.bind (fun r => r.msg)) (some message),
          code := thrown.bind (fun r => r.code) } := by
  unfold variantRoute
  simp [hauth, hi, hb]

theorem statusRoute_threw (auth : Option SessionAuth)
    (authHeaders : String × Option String) (hauth : getAuthHeaders auth = .ok authHeaders)
    (id : Option String) (message : String) (thrown : Option StatusProviderResponse)
    (hi : truthyStr id = true) :
    (statusRoute auth id (.threw message thrown)).status = 500 ∧
      (statusRoute auth id (.threw message thrown)).body =
        { success := false, data := none, error := some "Failed to get status",
          message := orStr (thrown.bind (fun r => r.msg)) (some message),
          code := thrown.bind (fun r => r.code) } := by
  unfold statusRoute
  simp [hauth, hi]

theorem generateOutcome_threw (auth : SessionAuth)
    (hmode : auth.type = "apikey" ∨ auth.type = "token")
    (prompt scale sourceImageUrl : String) (hprompt : prompt ≠ "") (message : String)
    (thrown : Option ProviderResponse) :
    generateOutcome (some auth) prompt scale sourceImageUrl (.threw message thrown) =
      .rejected ("Request failed with status code " ++ toString 500)
        (some { success := false, data := none, error := some "Failed to generate image",
                message := orStr (thrown.bind (fun r => r.msg)) (some message),
                code := thrown.bind (fun r => r.code) }) := by
  obtain ⟨authHeaders, hauth⟩ := getAuthHeaders_of_mode auth hmode
  obtain ⟨hs, hb⟩ := generateRoute_threw (some auth) authHeaders hauth (some prompt)
    (some scale) (if sourceImageUrl != "" then some sourceImageUrl else none) none message
    thrown (truthyStr_some prompt hprompt)
  unfold generateOutcome
  simp only [hs, hb]
  simp [axiosOutcome]

theorem createVariantOutcome_failed (auth : SessionAuth)
    (hmode : auth.type = "apikey" ∨ auth.type = "token")
    (imageId button : String) (hid : imageId ≠ "") (hbutton : button ≠ "")
    (response : ProviderResponse) (hcode : response.code ≠ some 1000) :
    createVariantOutcome (some auth) imageId button (.returned response) =
      .rejected ("Request failed with status code " ++ toString 400)
        (some { success := false, data := response.data,
                error := orStr response.msg (some "Failed to create variant"),
                message := none, code := response.code }) := by
  obtain ⟨authHeaders, hauth⟩ := getAuthHeaders_of_mode auth hmode
  obtain ⟨hs, hb⟩ := (variantRoute_returned (some auth) authHeaders hauth (some imageId)
    (some button) none response (truthyStr_some imageId hid)
    (truthyStr_some button hbutton)).2 hcode
  unfold createVariantOutcome
  simp only [hs, hb]
  simp [axiosOutcome]

theorem createVariantOutcome_threw (auth : SessionAuth)
    (hmode : auth.type = "apikey" ∨ auth.type = "token")
    (imageId button : String) (hid : imageId ≠ "") (hbutton : button ≠ "")
    (message : String) (thrown : Option ProviderResponse) :
    createVariantOutcome (some auth) imageId button (.threw message thrown) =
      .rejected ("Request failed with status code " ++ toString 500)
        (some { success := false, data := none, error := some "Failed to create variant",
                message := orStr (thrown.bind (fun r => r.msg)) (some message),
                code := thrown.bind (fun r => r.code) }) := by
  obtain ⟨authHeaders, hauth⟩ := getAuthHeaders_of_mode auth hmode
  obtain ⟨hs, hb⟩ := variantRoute_threw (some auth) authHeaders hauth (some imageId)
    (some button) none message thrown (truthyStr_some imageId hid)
    (truthyStr_some button hbutton)
  unfold createVariantOutcome
  simp only [hs, hb]
  simp [axiosOutcome]

theorem reportedVariantError_rejected (message : String) (body : CreateResponse)
    (m : String) (hm : m ≠ "") (he : body.error = some m) :
    reportedVariantError (.rejected message (some body)) = m := by
  have ht : truthyStr (some m) = true := truthyStr_some m hm
  simp [reportedVariantError, he, orStr_of_truthy _ _ ht]

theorem orStr_default (msg : Option String) (fallback : String)
    (h : msg = none ∨ msg = some "") : orStr msg (some fallback) = some fallback :=
  orStr_of_falsy _ _ ((truthyStr_eq_false_iff msg).mpr h)

/-- Counterexample to C21 as stated: the provider answers code 1101 with the message
`Token expired`. For create-by-prompt the user is told that the authentication expired;
for create-by-button the user is shown the message of the provider, the same text as for
the unknown code 9999 with that message; a status poll that fails with 1101 or with 9999
leaves the state as it was and sets no error at all. Only create-by-prompt distinguishes
the code. And when the provider answers the unknown code 9999 with an HTTP error, the
route answers 500 and the user is shown the fixed text of the route, not the message
`quota exceeded` of the provider. -/
theorem failure_codes_not_distinguished :
    reportedGenerateError (generateOutcome (some sampleAuth) "a cat" "1:1" ""
        (providerFailed 1101 "Token expired")) =
        "Authentication expired. Please login again." ∧
      reportedVariantError (createVariantOutcome (some sampleAuth) "A" "U1"
        (providerFailed 1101 "Token expired")) = "Token expired" ∧
      reportedVariantError (createVariantOutcome (some sampleAuth) "A" "U1"
        (providerFailed 9999 "Token expired")) = "Token expired" ∧
      pollStatus "A" (getStatus (some sampleAuth) "A"
        (providerStatusFailed 1101 "Token expired")) sampleState = sampleState ∧
      reportedPollError "" (getStatusOutcome (some sampleAuth) "A"
        (providerStatusFailed 1101 "Token expired")) = "" ∧
      reportedPollError "" (getStatusOutcome (some sampleAuth) "A"
        (providerStatusFailed 9999 "Token expired")) = "" ∧
      (generateRoute (some sampleAuth) (some "a cat") (some "1:1") none none
        (.threw "Request failed with status code 500"
          (some ⟨some 9999, some "quota exceeded", none⟩))).status = 500 ∧
      reportedGenerateError (generateOutcome (some sampleAuth) "a cat" "1:1" ""
        (.threw "Request failed with status code 500"
          (some ⟨some 9999, some "quota exceeded", none⟩))) = "Failed to generate image" ∧
      reportedVariantError (createVariantOutcome (some sampleAuth) "A" "U1"
        (.threw "Request failed with status code 500"
          (some ⟨some 9999, some "quota exceeded", none⟩))) = "Failed to create variant" := by
  decide

/-- C21, amended. For an authenticated session and well-formed arguments:
(1) when the answer of the provider arrives as an HTTP success, each of `/generate`,
`/variant` and `/status/:id` turns code 1000 into a success (HTTP 200) that carries the
data of the provider unchanged, and any other code into a failure (HTTP 400, `success`
false) that carries the code of the provider and, as `error`, its message (the default
text of the route when the provider gives none);
(2) when the answer arrives as an HTTP error, each route answers a failure (HTTP 500,
`success` false) that carries the code of the provider and, as `message`, its message
(the text of the thrown error when it gives none), with the fixed text of the route as
`error`;
(3) for create-by-prompt the failure reported to the user is the text of 1101
(authentication expired), of 1108 (generation error) or of 1200 (account banned) in both
cases, and for any other failure the message of the provider passed through (the default
text when it gives none) in case (1) and the fixed text of the route in case (2);
(4) for create-by-button a failure with a code other than 1101, 1108 and 1200 is
reported likewise: the message of the provider passed through in case (1), the fixed text
of the route in case (2);
(5) a get-status poll that fails, in either case, reports nothing to the user and changes
neither the jobs nor the timers. -/
theorem provider_failure_translation (auth : SessionAuth)
    (hmode : auth.type = "apikey" ∨ auth.type = "token")
    (prompt scale sourceImageUrl imageId button : String)
    (hprompt : prompt ≠ "") (hid : imageId ≠ "") (hbutton : button ≠ "")
    (source_image webhookUrl : Option String)
    (response : ProviderResponse) (statusResponse : StatusProviderResponse)
    (message : String) :
    ((response.code = some 1000 →
        ((generateRoute (some auth) (some prompt) (some scale) source_image webhookUrl
            (.returned response)).status = 200 ∧
          (generateRoute (some auth) (some prompt) (some scale) source_image webhookUrl
            (.returned response)).body.success = true ∧
          (generateRoute (some auth) (some prompt) (some scale) source_image webhookUrl
            (.returned response)).body.data = response.data) ∧
        ((variantRoute (some auth) (some imageId) (some button) webhookUrl
            (.returned response)).status = 200 ∧
          (variantRoute (some auth) (some imageId) (some button) webhookUrl
            (.returned response)).body.success = true ∧
          (variantRoute (some auth) (some imageId) (some button) webhookUrl
            (.returned response)).body.data = response.data)) ∧
      (statusResponse.code = some 1000 →
        (statusRoute (some auth) (some imageId) (.returned statusResponse)).status = 200 ∧
        (statusRoute (some auth) (some imageId) (.returned statusResponse)).body.success =
          true ∧
        (statusRoute (some auth) (some imageId) (.returned statusResponse)).body.data =
          statusResponse.data) ∧
      (response.code ≠ some 1000 →
        ((generateRoute (some auth) (some prompt) (some scale) source_image webhookUrl
            (.returned response)).status = 400 ∧
          (generateRoute (some auth) (some prompt) (some scale) source_image webhookUrl
            (.returned response)).body.success = false ∧
          (generateRoute (some auth) (some prompt) (some scale) source_image webhookUrl
            (.returned response)).body.code = response.code ∧
          (generateRoute (some auth) (some prompt) (some scale) source_image webhookUrl
            (.returned response)).body.error =
            orStr response.msg (some "Failed to generate image")) ∧
        ((variantRoute (some auth) (some imageId) (some button) webhookUrl
            (.returned response)).status = 400 ∧
          (variantRoute (some auth) (some imageId) (some button) webhookUrl
            (.returned response)).body.success = false ∧
          (variantRoute (some auth) (some imageId) (some button) webhookUrl
            (.returned response)).body.code = response.code ∧
          (variantRoute (some auth) (some imageId) (some button) webhookUrl
            (.returned response)).body.error =
            orStr response.msg (some "Failed to create variant"))) ∧
      (statusResponse.code ≠ some 1000 →
        (statusRoute (some auth) (some imageId) (.returned statusResponse)).status = 400 ∧
        (statusRoute (some auth) (some imageId) (.returned statusResponse)).body.success =
          false ∧
        (statusRoute (some auth) (some imageId) (.returned statusResponse)).body.code =
          statusResponse.code ∧
        (statusRoute (some auth) (some imageId) (.returned statusResponse)).body.error =
          orStr statusResponse.msg (some "Failed to get status"))) ∧
    (((generateRoute (some auth) (some prompt) (some scale) source_image webhookUrl
          (.threw message (some response))).status = 500 ∧
        (generateRoute (some auth) (some prompt) (some scale) source_image webhookUrl
          (.threw message (some response))).body =
          { success := false, data := none, error := some "Failed to generate image",
            message := orStr response.msg (some message), code := response.code }) ∧
      ((variantRoute (some auth) (some imageId) (some button) webhookUrl
          (.threw message (some response))).status = 500 ∧
        (variantRoute (some auth) (some imageId) (some button) webhookUrl
          (.threw message (some response))).body =
          { success := false, data := none, error := some "Failed to create variant",
            message := orStr response.msg (some message), code := response.code }) ∧
      ((statusRoute (some auth) (some imageId)
          (.threw message (some statusResponse))).status = 500 ∧
        (statusRoute (some auth) (some imageId)
          (.threw message (some statusResponse))).body =
          { success := false, data := none, error := some "Failed to get status",
            message := orStr statusResponse.msg (some message),
            code := statusResponse.code })) ∧
    ((response.code = some 1101 →
        reportedGenerateError (generateOutcome (some auth) prompt scale sourceImageUrl
          (.returned response)) = "Authentication expired. Please login again." ∧
        reportedGenerateError (generateOutcome (some auth) prompt scale sourceImageUrl
          (.threw message (some response))) =
          "Authentication expired. Please login again.") ∧
      (response.code = some 1108 →
        reportedGenerateError (generateOutcome (some auth) prompt scale sourceImageUrl
          (.returned response)) = "Image generation error. Please try again later." ∧
        reportedGenerateError (generateOutcome (some auth) prompt scale sourceImageUrl
          (.threw message (some response))) =
          "Image generation error. Please try again later.") ∧
      (response.code = some 1200 →
        reportedGenerateError (generateOutcome (some auth) prompt scale sourceImageUrl
          (.returned response)) = "Account has been banned." ∧
        reportedGenerateError (generateOutcome (some auth) prompt scale sourceImageUrl
          (.threw message (some response))) = "Account has been banned.") ∧
      (response.code ≠ some 1101 → response.code ≠ some 1108 →
        response.code ≠ some 1200 →
        (response.code ≠ some 1000 →
          (∀ m : String, m ≠ "" → response.msg = some m →
            reportedGenerateError (generateOutcome (some auth) prompt scale sourceImageUrl
              (.returned response)) = m) ∧
          ((response.msg = none ∨ response.msg = some "") →
            reportedGenerateError (generateOutcome (some auth) prompt scale sourceImageUrl
              (.returned response)) = "Failed to generate image")) ∧
        reportedGenerateError (generateOutcome (some auth) prompt scale sourceImageUrl
          (.threw message (some response))) = "Failed to generate image")) ∧
    (response.code ≠ some 1101 → response.code ≠ some 1108 →
      response.code ≠ some 1200 →
      (response.code ≠ some 1000 →
        (∀ m : String, m ≠ "" → response.msg = some m →
          reportedVariantError (createVariantOutcome (some auth) imageId button
            (.returned response)) = m) ∧
        ((response.msg = none ∨ response.msg = some "") →
          reportedVariantError (createVariantOutcome (some auth) imageId button
            (.returned response)) = "Failed to create variant")) ∧
      reportedVariantError (createVariantOutcome (some auth) imageId button
        (.threw message (some response))) = "Failed to create variant") ∧
    ((statusResponse.code ≠ some 1000 →
        ∀ (st : DemoState) (previous : String),
          pollStatus imageId (getStatus (some auth) imageId (.returned statusResponse))
            st = st ∧
          reportedPollError previous (getStatusOutcome (some auth) imageId
            (.returned statusResponse)) = previous) ∧
      (∀ (st : DemoState) (previous : String),
        pollStatus imageId (getStatus (some auth) imageId
          (.threw message (some statusResponse))) st = st ∧
        reportedPollError previous (getStatusOutcome (some auth) imageId
          (.threw message (some statusResponse))) = previous)) := by
  obtain ⟨authHeaders, hauth⟩ := getAuthHeaders_of_mode auth hmode
  have hg := generateRoute_returned (some auth) authHeaders hauth (some prompt) (some scale)
    source_image webhookUrl response (truthyStr_some prompt hprompt)
  have hv := variantRoute_returned (some auth) authHeaders hauth (some imageId)
    (some button) webhookUrl response (truthyStr_some imageId hid)
    (truthyStr_some button hbutton)
  have hst := statusRoute_returned (some auth) authHeaders hauth (some imageId)
    statusResponse (truthyStr_some imageId hid)
  have hne : ∀ n : Nat, n ≠ 1000 → response.code = some n →
      response.code ≠ some 1000 := by
    intro n hn hc
    rw [hc]
    simpa using hn
  have hgr := fun hc => generateOutcome_failed auth hmode prompt scale sourceImageUrl
    hprompt response hc
  have hgt := generateOutcome_threw auth hmode prompt scale sourceImageUrl hprompt message
    (some response)
  have hvr := fun hc => createVariantOutcome_failed auth hmode imageId button hid hbutton
    response hc
  have hvt := createVariantOutcome_threw auth hmode imageId button hid hbutton message
    (some response)
  refine ⟨⟨?_, ?_, ?_, ?_⟩, ⟨?_, ?_, ?_⟩, ⟨?_, ?_, ?_, ?_⟩, ?_, ⟨?_, ?_⟩⟩
  · intro hc
    obtain ⟨g1, g2⟩ := hg.1 hc
    obtain ⟨v1, v2⟩ := hv.1 hc
    exact ⟨⟨g1, by rw [g2], by rw [g2]⟩, ⟨v1, by rw [v2], by rw [v2]⟩⟩
  · intro hc
    obtain ⟨s1, s2⟩ := hst.1 hc
    exact ⟨s1, by rw [s2], by rw [s2]⟩
  · intro hc
    obtain ⟨g1, g2⟩ := hg.2 hc
    obtain ⟨v1, v2⟩ := hv.2 hc
    exact ⟨⟨g1, by rw [g2], by rw [g2], by rw [g2]⟩,
      ⟨v1, by rw [v2], by rw [v2], by rw [v2]⟩⟩
  · intro hc
    obtain ⟨s1, s2⟩ := hst.2 hc
    exact ⟨s1, by rw [s2], by rw [s2], by rw [s2]⟩
  · exact generateRoute_threw (some auth) authHeaders hauth (some prompt) (some scale)
      source_image webhookUrl message (some response) (truthyStr_some prompt hprompt)
  · exact variantRoute_threw (some auth) authHeaders hauth (some imageId) (some button)
      webhookUrl message (some response) (truthyStr_some imageId hid)
      (truthyStr_some button hbutton)
  · exact statusRoute_threw (some auth) authHeaders hauth (some imageId) message
      (some statusResponse) (truthyStr_some imageId hid)
  · intro hc
    rw [hgr (hne 1101 (by decide) hc), hgt]
    exact ⟨(reportedGenerateError_rejected _ _).1 hc,
      (reportedGenerateError_rejected _ _).1 hc⟩
  · intro hc
    rw [hgr (hne 1108 (by decide) hc), hgt]
    exact ⟨(reportedGenerateError_rejected _ _).2.1 hc,
      (reportedGenerateError_rejected _ _).2.1 hc⟩
  · intro hc
    rw [hgr (hne 1200 (by decide) hc), hgt]
    exact ⟨(reportedGenerateError_rejected _ _).2.2.1 hc,
      (reportedGenerateError_rejected _ _).2.2.1 hc⟩
  · intro h1 h2 h3
    refine ⟨?_, ?_⟩
    · intro h0
      rw [hgr h0]
      refine ⟨?_, ?_⟩
      · intro m hm hmsg
        refine (reportedGenerateError_rejected _ _).2.2.2 h1 h2 h3 m hm ?_
        simp only [hmsg]
        exact orStr_of_truthy _ _ (truthyStr_some m hm)
      · intro hno
        exact (reportedGenerateError_rejected _ _).2.2.2 h1 h2 h3
          "Failed to generate image" (by decide) (orStr_default _ _ hno)
    · rw [hgt]
      exact (reportedGenerateError_rejected _ _).2.2.2 h1 h2 h3
        "Failed to generate image" (by decide) rfl
  · intro _ _ _
    refine ⟨?_, ?_⟩
    · intro h0
      rw [hvr h0]
      refine ⟨?_, ?_⟩
      · intro m hm hmsg
        refine reportedVariantError_rejected _ _ m hm ?_
        simp only [hmsg]
        exact orStr_of_truthy _ _ (truthyStr_some m hm)
      · intro hno
        exact reportedVariantError_rejected _ _ "Failed to create variant" (by decide)
          (orStr_default _ _ hno)
    · rw [hvt]
      exact reportedVariantError_rejected _ _ "Failed to create variant" (by decide) rfl
  · intro hc st previous
    rw [getStatus_failed auth hmode imageId hid statusResponse hc]
    exact ⟨rfl, rfl⟩
  · intro st previous
    rw [getStatus_threw]
    exact ⟨rfl, rfl⟩

/-- Witness of C21, amended: with the sample API key, the provider code 1108 on
create-by-prompt is reported as a generation error; the unknown code 9999 with the
message `quota exceeded` is reported with that message, by create-by-prompt and by
create-by-button, when the answer arrives as an HTTP success, and with the fixed text of
the route when it arrives as an HTTP error, which the route answers with status 500 and
the code 9999; a poll that fails so leaves the sample state as it was. -/
theorem provider_failure_translation_witness :
    ((sampleAuth.type = "apikey" ∨ sampleAuth.type = "token") ∧ "a cat" ≠ "" ∧
        "A" ≠ "" ∧ "U1" ≠ "") ∧
      reportedGenerateError (generateOutcome (some sampleAuth) "a cat" "1:1" ""
        (.returned ⟨some 1108, some "busy", none⟩)) =
        "Image generation error. Please try again later." ∧
      reportedGenerateError (generateOutcome (some sampleAuth) "a cat" "1:1" ""
        (.returned ⟨some 9999, some "quota exceeded", none⟩)) = "quota exceeded" ∧
      reportedGenerateError (generateOutcome (some sampleAuth) "a cat" "1:1" ""
        (.threw "Request failed with status code 500"
          (some ⟨some 9999, some "quota exceeded", none⟩))) = "Failed to generate image" ∧
      reportedVariantError (createVariantOutcome (some sampleAuth) "A" "U1"
        (.returned ⟨some 9999, some "quota exceeded", none⟩)) = "quota exceeded" ∧
      (generateRoute (some sampleAuth) (some "a cat") (some "1:1") none none
        (.threw "Request failed with status code 500"
          (some ⟨some 9999, some "quota exceeded", none⟩))).status = 500 ∧
      (variantRoute (some sampleAuth) (some "A") (some "U1") none
        (.returned ⟨some 9999, some "quota exceeded", none⟩)).body.code = some 9999 ∧
      pollStatus "A" (getStatus (some sampleAuth) "A"
        (.threw "Request failed with status code 500"
          (some ⟨some 9999, some "quota exceeded", none⟩))) sampleState = sampleState := by
  have h1108 := provider_failure_translation sampleAuth (Or.inl rfl) "a cat" "1:1" "" "A"
    "U1" (by decide) (by decide) (by decide) none none ⟨some 1108, some "busy", none⟩
    ⟨some 9999, some "quota exceeded", none⟩ "Request failed with status code 500"
  have h9999 := provider_failure_translation sampleAuth (Or.inl rfl) "a cat" "1:1" "" "A"
    "U1" (by decide) (by decide) (by decide) none none
    ⟨some 9999, some "quota exceeded", none⟩ ⟨some 9999, some "quota exceeded", none⟩
    "Request failed with status code 500"
  exact ⟨⟨Or.inl rfl, by decide, by decide, by decide⟩,
    (h1108.2.2.1.2.1 rfl).1,
    ((h9999.2.2.1.2.2.2 (by decide) (by decide) (by decide)).1 (by decide)).1
      "quota exceeded" (by decide) rfl,
    (h9999.2.2.1.2.2.2 (by decide) (by decide) (by decide)).2,
    ((h9999.2.2.2.1 (by decide) (by decide) (by decide)).1 (by decide)).1
      "quota exceeded" (by decide) rfl,
    h9999.2.1.1.1,
    (h9999.1.2.2.1 (by decide)).2.2.2.1,
    (h9999.2.2.2.2.2 sampleState "").1⟩

end Akool
